import Mathlib

/-!
Verification development for the vehicle-image-comparison repository.

Shallow embedding conventions:
* Go `float64` values flowing through the comparison engine are modelled as `ℝ`
  (the code uses `math.Exp` / `math.Sqrt`, so `ℝ` is the faithful carrier);
  `math.IsNaN` / `math.IsInf` branches are unreachable in this model and are
  noted at each definition.  The JSON sanitizer (`ValidateAndSanitize`), whose
  whole point is NaN/Inf handling, is modelled separately over an explicit
  float type with NaN and infinities.
* Go `int` values are modelled as `ℤ` (Go `/` on ints truncates toward zero;
  every concrete division taken in this development is exact or has a
  positive dividend, where Lean's `Int` division agrees).
* OpenCV primitives (contour finding, colour conversion, Hough transforms) are
  external collaborators per the spec; where a claim depends only on how their
  outputs are combined, those outputs are taken as explicit arguments.
-/

set_option maxHeartbeats 1000000

noncomputable section

namespace models

/-- Vehicle view enum, from internal/models/types.go. -/
inductive VehicleView where
  | Front
  | Rear
  | Unknown
deriving DecidableEq

/-- Lighting condition enum, from internal/models/types.go. -/
inductive LightingType where
  | Daylight
  | Infrared
  | Unknown
deriving DecidableEq

/-- 2D point, from internal/models/types.go (`Point2D`). -/
structure Point2D where
  X : ℝ
  Y : ℝ

/-- Bounding rectangle with Go `int` fields, from internal/models/types.go. -/
structure Bounds where
  X : ℤ
  Y : ℤ
  Width : ℤ
  Height : ℤ

/-- Dimensional ratios, from internal/models/features.go. -/
structure VehicleProportions where
  WidthHeightRatio : ℝ
  UpperLowerRatio : ℝ
  LicensePlateRatio : ℝ

/-- Structural component, from internal/models/features.go.  The Go field
`Type` is a reserved word in Lean and is rendered `EType`. -/
structure StructuralElement where
  EType : String
  Position : Point2D
  Size : ℝ

/-- Geometric feature block, from internal/models/features.go. -/
structure GeometricFeatures where
  VehicleProportions : VehicleProportions
  StructuralElements : List StructuralElement
  ReferencePoints : List Point2D

/-- Light shape enum, from internal/models/features.go. -/
inductive LightShape where
  | ShapeRectangular
  | ShapeRound
  | ShapeAngular
  | ShapeCustom
deriving DecidableEq

/-- Light type enum, from internal/models/features.go. -/
inductive LightType where
  | TypeHeadlight
  | TypeTaillight
  | TypeDRL
  | TypeFogLight
  | TypeBrakeLight
deriving DecidableEq

/-- Individual light component, from internal/models/features.go.  The Go
field `Type` is rendered `LType`. -/
structure LightElement where
  Position : Point2D
  Shape : LightShape
  Size : ℝ
  Intensity : ℝ
  LType : LightType

/-- Overall light setup, from internal/models/features.go.  `NumElements` is a
Go `int`. -/
structure LightConfiguration where
  NumElements : ℤ
  Symmetry : ℝ
  Spacing : ℝ

/-- Light pattern feature block, from internal/models/features.go. -/
structure LightPatternFeatures where
  LightElements : List LightElement
  PatternSignature : List ℝ
  LightConfiguration : LightConfiguration

/-- Bumper feature block, from internal/models/features.go. -/
structure BumperFeatures where
  ContourSignature : List Point2D
  TextureFeatures : List ℝ
  MountingPoints : List Point2D
  LicensePlateArea : Bounds

/-- RGB colour with weight, from internal/models/features.go (`R`, `G`, `B`
are `uint8`). -/
structure Color where
  R : ℕ
  G : ℕ
  B : ℕ
  Weight : ℝ

/-- Colour profile, from internal/models/features.go. -/
structure ColorProfile where
  DominantColors : List Color
  Histogram : List ℤ

/-- Badge feature, from internal/models/features.go. -/
structure BadgeFeature where
  Position : Point2D
  Size : ℝ
  Shape : String

/-- Trim feature, from internal/models/features.go.  The Go field `Type` is
rendered `TType`. -/
structure TrimFeature where
  Position : Point2D
  TType : String
  Texture : String

/-- Texture signature, from internal/models/features.go.  The Go field `Type`
is rendered `SType`. -/
structure TextureSignature where
  Features : List ℝ
  SType : String

/-- Daylight-only feature block, from internal/models/features.go. -/
structure DaylightFeatures where
  ColorProfile : ColorProfile
  BadgeLocations : List BadgeFeature
  TrimDetails : List TrimFeature
  SurfaceTexture : TextureSignature

/-- Reflective element, from internal/models/features.go. -/
structure ReflectiveElement where
  Position : Point2D
  Intensity : ℝ
  Size : ℝ
  Shape : String

/-- Heat pattern, from internal/models/features.go. -/
structure HeatPattern where
  Region : Bounds
  Temperature : ℝ
  Gradient : List ℝ

/-- Detected license plate region, from internal/models/types.go. -/
structure LicensePlateRegion where
  Bounds : Bounds
  Confidence : ℝ
  AvgBrightness : ℝ
  IsReflective : Bool

/-- IR signature around the plate; field set taken from the literal built in
`ExtractIRSignature` (extractor/ir_signature.go). -/
structure IRSignature where
  PlateRegion : LicensePlateRegion
  SurroundingRegion : Bounds
  ReflectivityMap : List (List ℝ)
  MaterialSignature : List ℝ
  IlluminationGradient : List ℝ
  ShadowPatterns : List Point2D
  TextureFeatures : List ℝ

/-- Infrared-only feature block, from internal/models/features.go.  The Go
pointer field `IRSignature *IRSignature` is modelled as an `Option`. -/
structure InfraredFeatures where
  ThermalSignature : List ℝ
  ReflectiveElements : List ReflectiveElement
  HeatPatterns : List HeatPattern
  MaterialSignature : List ℝ
  IRSignature : Option IRSignature := none

/-- Full per-image feature set, from internal/models/features.go.  The Go
pointer fields are modelled as `Option`s. -/
structure VehicleFeatures where
  View : VehicleView
  Lighting : LightingType
  GeometricFeatures : GeometricFeatures
  LightPatterns : LightPatternFeatures
  BumperFeatures : BumperFeatures
  DaylightFeatures : Option DaylightFeatures := none
  InfraredFeatures : Option InfraredFeatures := none
  ExtractionQuality : ℝ

/-- Confidence level enum, from the models package (`results.go`). -/
inductive ConfidenceLevel where
  | ConfidenceHigh
  | ConfidenceMedium
  | ConfidenceLow
deriving DecidableEq

/-- Per-category similarity breakdown, from the models package
(`results.go`). -/
structure DetailedScores where
  GeometricSimilarity : ℝ
  LightPatternSimilarity : ℝ
  BumperSimilarity : ℝ
  ColorSimilarity : ℝ := 0
  ThermalSimilarity : ℝ := 0

/-- Processing metadata, from the models package (`results.go`).  Only the
engine claims use this model; all numeric fields default to Go zero values. -/
structure ProcessingInfo where
  ProcessingTimeMs : ℤ := 0
  Image1Quality : ℝ := 0
  Image2Quality : ℝ := 0
  AlignmentQuality : ℝ := 0
  ViewConsistency : Bool := false
  LightingConsistency : Bool := false

/-- Final comparison result, from the models package (`results.go`). -/
structure ComparisonResult where
  IsSameVehicle : Bool
  SimilarityScore : ℝ
  ConfidenceLevel : ConfidenceLevel
  DetailedScores : DetailedScores
  ProcessingInfo : ProcessingInfo := {}

end models

namespace comparator

open models

/-- `safeFloat64` from internal/comparator (engine source).  In the `ℝ` model
the `math.IsNaN`/`math.IsInf` branch is unreachable (those values do not
exist), so only the final clamp `math.Max(0, math.Min(1, value))` remains;
the default argument is kept to mirror the Go signature. -/
def safeFloat64 (value : ℝ) (defaultValue : ℝ) : ℝ :=
  max 0 (min 1 value)

/-- `compareVehicleProportions` from the comparison engine. -/
def compareVehicleProportions (prop1 prop2 : VehicleProportions) : ℝ :=
  let widthHeightSim : ℝ :=
    if max prop1.WidthHeightRatio prop2.WidthHeightRatio > 0 then
      1 - |prop1.WidthHeightRatio - prop2.WidthHeightRatio| /
        max prop1.WidthHeightRatio prop2.WidthHeightRatio
    else 0.5
  let upperLowerSim : ℝ :=
    if max prop1.UpperLowerRatio prop2.UpperLowerRatio > 0 then
      1 - |prop1.UpperLowerRatio - prop2.UpperLowerRatio| /
        max prop1.UpperLowerRatio prop2.UpperLowerRatio
    else 0.5
  let licensePlateSim : ℝ :=
    if prop1.LicensePlateRatio > 0 ∧ prop2.LicensePlateRatio > 0 then
      if max prop1.LicensePlateRatio prop2.LicensePlateRatio > 0 then
        1 - |prop1.LicensePlateRatio - prop2.LicensePlateRatio| /
          max prop1.LicensePlateRatio prop2.LicensePlateRatio
      else 1
    else 1
  let result := widthHeightSim * 0.4 + upperLowerSim * 0.4 + licensePlateSim * 0.2
  max 0 (min 1 result)

/-- Pairwise similarity of two structural elements: the body of the inner
loop of `compareStructuralElements` (same-type position/size score). -/
def structuralPairScore (e1 e2 : StructuralElement) : ℝ :=
  let dx := e1.Position.X - e2.Position.X
  let dy := e1.Position.Y - e2.Position.Y
  let distance := Real.sqrt (dx * dx + dy * dy)
  let positionSim := Real.exp (-distance / 50)
  let sizeSim : ℝ :=
    if max e1.Size e2.Size > 0 then 1 - |e1.Size - e2.Size| / max e1.Size e2.Size
    else 0.5
  safeFloat64 (positionSim * 0.7 + sizeSim * 0.3) 0

/-- The inner loop of `compareStructuralElements`: greedy best same-type
match of `e1` against `elements2` (running maximum starting at 0). -/
def bestStructuralMatch (e1 : StructuralElement) (elements2 : List StructuralElement) : ℝ :=
  elements2.foldl (fun b e2 =>
    if e1.EType = e2.EType then
      if structuralPairScore e1 e2 > b then structuralPairScore e1 e2 else b
    else b) 0

/-- One iteration of the outer loop of `compareStructuralElements`: matches
with best similarity > 0.3 accumulate into the running (total, count). -/
def structuralAccum (elements2 : List StructuralElement) (acc : ℝ × ℕ)
    (e1 : StructuralElement) : ℝ × ℕ :=
  if bestStructuralMatch e1 elements2 > 0.3 then
    (acc.1 + bestStructuralMatch e1 elements2, acc.2 + 1)
  else acc

/-- `compareStructuralElements` from the comparison engine: greedy best match
per element of set 1 over set 2 (same type only), matches scoring > 0.3 are
averaged. -/
def compareStructuralElements (elements1 elements2 : List StructuralElement) : ℝ :=
  if elements1.length = 0 ∧ elements2.length = 0 then 1
  else if elements1.length = 0 ∨ elements2.length = 0 then 0
  else
    let r := elements1.foldl (structuralAccum elements2) (0, 0)
    if r.2 = 0 then 0
    else safeFloat64 (r.1 / (r.2 : ℝ)) 0.5

/-- The `distance` computed in the point-matching loops
(`math.Sqrt(math.Pow(p1.X-p2.X, 2) + math.Pow(p1.Y-p2.Y, 2))`). -/
def loopDistance (p1 p2 : Point2D) : ℝ :=
  Real.sqrt ((p1.X - p2.X) ^ 2 + (p1.Y - p2.Y) ^ 2)

/-- One iteration of the running-minimum loop `if distance < minDistance`.
`none` plays the role of the `math.Inf(1)` initial value. -/
def minStep (p1 : Point2D) (m : Option ℝ) (p2 : Point2D) : Option ℝ :=
  match m with
  | none => some (loopDistance p1 p2)
  | some m0 => if loopDistance p1 p2 < m0 then some (loopDistance p1 p2) else some m0

/-- The running-minimum loop `minDistance := math.Inf(1); for p2 { if d <
minDistance ... }` shared by `compareReferencePoints` and `compareContours`.
The `math.IsInf` test in the caller corresponds to `none`. -/
def minDistanceTo (p1 : Point2D) (points2 : List Point2D) : Option ℝ :=
  points2.foldl (minStep p1) none

/-- One iteration of the point-matching outer loop: a nearest neighbour
closer than `threshold` accumulates into the running (total distance, match
count); `none` (the `math.Inf(1)` sentinel surviving an empty inner loop)
does not match. -/
def pointMatchAccum (points2 : List Point2D) (threshold : ℝ) (acc : ℝ × ℕ)
    (p1 : Point2D) : ℝ × ℕ :=
  match minDistanceTo p1 points2 with
  | some minDistance =>
      if minDistance < threshold then (acc.1 + minDistance, acc.2 + 1) else acc
  | none => acc

/-- `compareReferencePoints` from the comparison engine. -/
def compareReferencePoints (points1 points2 : List Point2D) : ℝ :=
  if points1.length = 0 ∨ points2.length = 0 then 0.5
  else
    let r := points1.foldl (pointMatchAccum points2 50) (0, 0)
    if r.2 = 0 then 0
    else
      let avgDistance := r.1 / (r.2 : ℝ)
      safeFloat64 (Real.exp (-avgDistance / 20)) 0.5

/-- `compareGeometricFeatures` from the comparison engine. -/
def compareGeometricFeatures (geo1 geo2 : GeometricFeatures) : ℝ :=
  let proportionSimilarity := compareVehicleProportions geo1.VehicleProportions geo2.VehicleProportions
  let structuralSimilarity := compareStructuralElements geo1.StructuralElements geo2.StructuralElements
  let alignmentSimilarity := compareReferencePoints geo1.ReferencePoints geo2.ReferencePoints
  let result := proportionSimilarity * 0.4 + structuralSimilarity * 0.4 + alignmentSimilarity * 0.2
  safeFloat64 result 0.5

/-- The `dotProduct` accumulation loop of `compareSignatures` (the loop runs
over the common index range of the two equal-length vectors). -/
def dotFold (sig1 sig2 : List ℝ) : ℝ :=
  (sig1.zip sig2).foldl (fun a p => a + p.1 * p.2) 0

/-- The `norm1`/`norm2` accumulation loop of `compareSignatures` (sum of
squares). -/
def normFold (sig : List ℝ) : ℝ :=
  sig.foldl (fun a x => a + x * x) 0

/-- `compareSignatures` from the comparison engine (cosine similarity). -/
def compareSignatures (sig1 sig2 : List ℝ) : ℝ :=
  if sig1.length ≠ sig2.length then 0
  else if sig1.length = 0 then 1
  else if normFold sig1 = 0 ∨ normFold sig2 = 0 then 0
  else if Real.sqrt (normFold sig1) * Real.sqrt (normFold sig2) = 0 then 0
  else safeFloat64 (dotFold sig1 sig2 / (Real.sqrt (normFold sig1) * Real.sqrt (normFold sig2))) 0

/-- `compareSingleLightElement` from the comparison engine. -/
def compareSingleLightElement (e1 e2 : LightElement) : ℝ :=
  if e1.LType ≠ e2.LType then 0
  else
    let positionDistance :=
      Real.sqrt ((e1.Position.X - e2.Position.X) ^ 2 + (e1.Position.Y - e2.Position.Y) ^ 2)
    let positionSim := Real.exp (-positionDistance / 30)
    let shapeSim : ℝ := if e1.Shape = e2.Shape then 1 else 0
    let sizeSim : ℝ :=
      if max e1.Size e2.Size > 0 then 1 - |e1.Size - e2.Size| / max e1.Size e2.Size
      else 0.5
    let intensitySim := 1 - |e1.Intensity - e2.Intensity|
    safeFloat64 (positionSim * 0.4 + shapeSim * 0.2 + sizeSim * 0.2 + intensitySim * 0.2) 0

/-- The inner loop of `compareLightElements`: greedy best match of `e1`
against `elements2` (running maximum starting at 0). -/
def bestLightMatch (e1 : LightElement) (elements2 : List LightElement) : ℝ :=
  elements2.foldl (fun b e2 =>
    if compareSingleLightElement e1 e2 > b then compareSingleLightElement e1 e2 else b) 0

/-- One iteration of the outer loop of `compareLightElements`. -/
def lightAccum (elements2 : List LightElement) (acc : ℝ × ℕ) (e1 : LightElement) : ℝ × ℕ :=
  if bestLightMatch e1 elements2 > 0.3 then
    (acc.1 + bestLightMatch e1 elements2, acc.2 + 1)
  else acc

/-- `compareLightElements` from the comparison engine. -/
def compareLightElements (elements1 elements2 : List LightElement) : ℝ :=
  if elements1.length = 0 ∧ elements2.length = 0 then 1
  else if elements1.length = 0 ∨ elements2.length = 0 then 0
  else
    let r := elements1.foldl (lightAccum elements2) (0, 0)
    if r.2 = 0 then 0
    else r.1 / (r.2 : ℝ)

/-- `compareLightConfiguration` from the comparison engine. -/
def compareLightConfiguration (config1 config2 : LightConfiguration) : ℝ :=
  let numElementsSim : ℝ :=
    if max (config1.NumElements : ℝ) (config2.NumElements : ℝ) > 0 then
      1 - |((config1.NumElements - config2.NumElements : ℤ) : ℝ)| /
        max (config1.NumElements : ℝ) (config2.NumElements : ℝ)
    else 0.5
  let symmetrySim := 1 - |config1.Symmetry - config2.Symmetry|
  let spacingSim : ℝ :=
    if config1.Spacing > 0 ∧ config2.Spacing > 0 then
      if max config1.Spacing config2.Spacing > 0 then
        1 - |config1.Spacing - config2.Spacing| / max config1.Spacing config2.Spacing
      else 1
    else 1
  let result := numElementsSim * 0.4 + symmetrySim * 0.3 + spacingSim * 0.3
  safeFloat64 result 0.5

/-- `compareLightPatterns` from the comparison engine. -/
def compareLightPatterns (pattern1 pattern2 : LightPatternFeatures) : ℝ :=
  let signatureSimilarity := compareSignatures pattern1.PatternSignature pattern2.PatternSignature
  let elementSimilarity := compareLightElements pattern1.LightElements pattern2.LightElements
  let configSimilarity :=
    compareLightConfiguration pattern1.LightConfiguration pattern2.LightConfiguration
  let result := signatureSimilarity * 0.4 + elementSimilarity * 0.4 + configSimilarity * 0.2
  safeFloat64 result 0.5

/-- `compareContours` from the comparison engine (nearest-point matching with
a 30px threshold; note no `math.IsInf` guard here, nonemptiness of `contour2`
is guaranteed by the early returns). -/
def compareContours (contour1 contour2 : List Point2D) : ℝ :=
  if contour1.length = 0 ∧ contour2.length = 0 then 1
  else if contour1.length = 0 ∨ contour2.length = 0 then 0
  else
    let r := contour1.foldl (pointMatchAccum contour2 30) (0, 0)
    if r.2 = 0 then 0
    else
      let avgDistance := r.1 / (r.2 : ℝ)
      safeFloat64 (Real.exp (-avgDistance / 15)) 0.5

/-- `comparePlateAreas` from the comparison engine.  Centre coordinates are
computed in Go `int` arithmetic (`area.X + area.Width/2`) before the float
conversion, mirrored here with `ℤ` division. -/
def comparePlateAreas (area1 area2 : Bounds) : ℝ :=
  let centerX1 : ℝ := ((area1.X + area1.Width / 2 : ℤ) : ℝ)
  let centerY1 : ℝ := ((area1.Y + area1.Height / 2 : ℤ) : ℝ)
  let centerX2 : ℝ := ((area2.X + area2.Width / 2 : ℤ) : ℝ)
  let centerY2 : ℝ := ((area2.Y + area2.Height / 2 : ℤ) : ℝ)
  let centerDistance := Real.sqrt ((centerX1 - centerX2) ^ 2 + (centerY1 - centerY2) ^ 2)
  let positionSim := Real.exp (-centerDistance / 20)
  let area1Size : ℝ := ((area1.Width * area1.Height : ℤ) : ℝ)
  let area2Size : ℝ := ((area2.Width * area2.Height : ℤ) : ℝ)
  let sizeSim : ℝ :=
    if max area1Size area2Size > 0 then 1 - |area1Size - area2Size| / max area1Size area2Size
    else 0.5
  safeFloat64 (positionSim * 0.6 + sizeSim * 0.4) 0.5

/-- `compareBumperFeatures` from the comparison engine. -/
def compareBumperFeatures (bumper1 bumper2 : BumperFeatures) : ℝ :=
  let contourSimilarity := compareContours bumper1.ContourSignature bumper2.ContourSignature
  let textureSimilarity := compareSignatures bumper1.TextureFeatures bumper2.TextureFeatures
  let mountingSimilarity := compareReferencePoints bumper1.MountingPoints bumper2.MountingPoints
  let plateAreaSimilarity := comparePlateAreas bumper1.LicensePlateArea bumper2.LicensePlateArea
  let result := contourSimilarity * 0.3 + textureSimilarity * 0.3 +
    mountingSimilarity * 0.2 + plateAreaSimilarity * 0.2
  safeFloat64 result 0.5

/-- `compareColorProfiles` from the comparison engine. -/
def compareColorProfiles (color1 color2 : ColorProfile) : ℝ :=
  if color1.DominantColors.length = 0 ∧ color2.DominantColors.length = 0 then 1
  else if color1.DominantColors.length = 0 ∨ color2.DominantColors.length = 0 then 0
  else
    let r := color1.DominantColors.foldl (fun (acc : ℝ × ℕ) c1 =>
      let bestSimilarity := color2.DominantColors.foldl (fun b c2 =>
        let rDiff := (c1.R : ℝ) - (c2.R : ℝ)
        let gDiff := (c1.G : ℝ) - (c2.G : ℝ)
        let bDiff := (c1.B : ℝ) - (c2.B : ℝ)
        let colorDistance := Real.sqrt (rDiff * rDiff + gDiff * gDiff + bDiff * bDiff)
        let similarity := 1 - colorDistance / 441.67
        if similarity > b then similarity else b) 0
      if bestSimilarity > 0.3 then (acc.1 + bestSimilarity, acc.2 + 1) else acc) (0, 0)
    if r.2 = 0 then 0
    else r.1 / (r.2 : ℝ)

/-- `compareBadgeFeatures` from the comparison engine (placeholder in the
source: always 0.5). -/
def compareBadgeFeatures (badges1 badges2 : List BadgeFeature) : ℝ := 0.5

/-- `compareTrimFeatures` from the comparison engine (placeholder in the
source: always 0.5). -/
def compareTrimFeatures (trim1 trim2 : List TrimFeature) : ℝ := 0.5

/-- `compareTextureSignatures` from the comparison engine. -/
def compareTextureSignatures (texture1 texture2 : TextureSignature) : ℝ :=
  compareSignatures texture1.Features texture2.Features

/-- `compareReflectiveElements` from the comparison engine (placeholder in the
source: always 0.5). -/
def compareReflectiveElements (elements1 elements2 : List ReflectiveElement) : ℝ := 0.5

/-- `compareHeatPatterns` from the comparison engine (placeholder in the
source: always 0.5). -/
def compareHeatPatterns (patterns1 patterns2 : List HeatPattern) : ℝ := 0.5

/-- `compareDaylightFeatures` from the comparison engine. -/
def compareDaylightFeatures (day1 day2 : DaylightFeatures) : ℝ :=
  let colorSimilarity := compareColorProfiles day1.ColorProfile day2.ColorProfile
  let badgeSimilarity := compareBadgeFeatures day1.BadgeLocations day2.BadgeLocations
  let trimSimilarity := compareTrimFeatures day1.TrimDetails day2.TrimDetails
  let textureSimilarity := compareTextureSignatures day1.SurfaceTexture day2.SurfaceTexture
  let result := colorSimilarity * 0.4 + badgeSimilarity * 0.2 +
    trimSimilarity * 0.2 + textureSimilarity * 0.2
  safeFloat64 result 0.5

/-- The inner cell loop of `compareReflectivityMaps`: accumulate the
absolute difference and bump the cell count. -/
def reflectCellAccum (a : ℝ × ℕ) (c : ℝ × ℝ) : ℝ × ℕ :=
  (a.1 + |c.1 - c.2|, a.2 + 1)

/-- One iteration of the row loop of `compareReflectivityMaps`: rows of
mismatched length are skipped (`continue`), otherwise every paired cell is
accumulated. -/
def reflectRowAccum (acc : ℝ × ℕ) (rows : List ℝ × List ℝ) : ℝ × ℕ :=
  if rows.1.length ≠ rows.2.length then acc
  else (rows.1.zip rows.2).foldl reflectCellAccum acc

/-- `compareReflectivityMaps` from the comparison engine. -/
def compareReflectivityMaps (map1 map2 : List (List ℝ)) : ℝ :=
  if map1.length = 0 ∧ map2.length = 0 then 1
  else if map1.length = 0 ∨ map2.length = 0 then 0
  else if map1.length ≠ map2.length then 0
  else
    let r := (map1.zip map2).foldl reflectRowAccum (0, 0)
    if r.2 = 0 then 0
    else
      let avgDifference := r.1 / (r.2 : ℝ)
      safeFloat64 (1 - avgDifference) 0.5

/-- `compareShadowPatterns` from the comparison engine. -/
def compareShadowPatterns (shadows1 shadows2 : List Point2D) : ℝ :=
  if shadows1.length = 0 ∧ shadows2.length = 0 then 1
  else if shadows1.length = 0 ∨ shadows2.length = 0 then 0
  else
    let r := shadows1.foldl (fun (acc : ℝ × ℕ) s1 =>
      let bestSimilarity := shadows2.foldl (fun b s2 =>
        let distance := Real.sqrt ((s1.X - s2.X) ^ 2 + (s1.Y - s2.Y) ^ 2)
        let similarity := Real.exp (-distance / 50)
        if similarity > b then similarity else b) 0
      if bestSimilarity > 0.3 then (acc.1 + bestSimilarity, acc.2 + 1) else acc) (0, 0)
    if r.2 = 0 then 0
    else
      let minShadows : ℝ := min (shadows1.length : ℝ) (shadows2.length : ℝ)
      safeFloat64 (r.1 / minShadows) 0.5

/-- `compareIRSignatures` from the comparison engine. -/
def compareIRSignatures (sig1 sig2 : IRSignature) : ℝ :=
  let reflectivitySimilarity := compareReflectivityMaps sig1.ReflectivityMap sig2.ReflectivityMap
  let materialSimilarity := compareSignatures sig1.MaterialSignature sig2.MaterialSignature
  let illuminationSimilarity := compareSignatures sig1.IlluminationGradient sig2.IlluminationGradient
  let shadowSimilarity := compareShadowPatterns sig1.ShadowPatterns sig2.ShadowPatterns
  let textureSimilarity := compareSignatures sig1.TextureFeatures sig2.TextureFeatures
  let result := reflectivitySimilarity * 0.35 + materialSimilarity * 0.30 +
    shadowSimilarity * 0.15 + illuminationSimilarity * 0.10 + textureSimilarity * 0.10
  safeFloat64 result 0.5

/-- The basic thermal comparison that `compareInfraredFeatures` falls back to
when either side lacks an `IRSignature` (the code past the early return). -/
def compareInfraredFallback (ir1 ir2 : InfraredFeatures) : ℝ :=
  let thermalSimilarity := compareSignatures ir1.ThermalSignature ir2.ThermalSignature
  let reflectiveSimilarity := compareReflectiveElements ir1.ReflectiveElements ir2.ReflectiveElements
  let heatSimilarity := compareHeatPatterns ir1.HeatPatterns ir2.HeatPatterns
  let materialSimilarity := compareSignatures ir1.MaterialSignature ir2.MaterialSignature
  let result := thermalSimilarity * 0.3 + reflectiveSimilarity * 0.3 +
    heatSimilarity * 0.2 + materialSimilarity * 0.2
  safeFloat64 result 0.5

/-- `compareInfraredFeatures` from the comparison engine: uses the IR
signatures when both are present, otherwise the basic thermal fallback. -/
def compareInfraredFeatures (ir1 ir2 : InfraredFeatures) : ℝ :=
  match ir1.IRSignature, ir2.IRSignature with
  | some s1, some s2 => compareIRSignatures s1 s2
  | _, _ => compareInfraredFallback ir1 ir2

/-- `calculateWeightedSimilarity` from the comparison engine. -/
def calculateWeightedSimilarity (scores : DetailedScores) (lighting : LightingType) : ℝ :=
  let wGeometric : ℝ := if lighting = LightingType.Daylight then 0.30 else 0.35
  let wLightPattern : ℝ := if lighting = LightingType.Daylight then 0.30 else 0.35
  let wBumper : ℝ := 0.20
  let wColor : ℝ := if lighting = LightingType.Daylight then 0.20 else 0
  let wThermal : ℝ := if lighting = LightingType.Daylight then 0 else 0.10
  let result := safeFloat64 scores.GeometricSimilarity 0.5 * wGeometric +
    safeFloat64 scores.LightPatternSimilarity 0.5 * wLightPattern +
    safeFloat64 scores.BumperSimilarity 0.5 * wBumper +
    safeFloat64 scores.ColorSimilarity 0.5 * wColor +
    safeFloat64 scores.ThermalSimilarity 0.5 * wThermal
  safeFloat64 result 0.5

/-- `getSimilarityThreshold` from the comparison engine. -/
def getSimilarityThreshold (lighting : LightingType) : ℝ :=
  if lighting = LightingType.Daylight then 0.75 else 0.70

/-- `calculateConfidenceLevel` from the comparison engine. -/
def calculateConfidenceLevel (similarity : ℝ) (features1 features2 : VehicleFeatures) :
    ConfidenceLevel :=
  let avgQuality := (features1.ExtractionQuality + features2.ExtractionQuality) / 2
  if avgQuality > 0.8 ∧ similarity > 0.9 then ConfidenceLevel.ConfidenceHigh
  else if avgQuality > 0.6 ∧ similarity > 0.8 then ConfidenceLevel.ConfidenceHigh
  else if avgQuality > 0.4 then ConfidenceLevel.ConfidenceMedium
  else ConfidenceLevel.ConfidenceLow

/-- The `detailedScores` local of `CompareVehicles`: the three universal
scores, plus the lighting-specific scores exactly when both sides carry the
corresponding feature block (otherwise those fields keep the Go zero
value 0). -/
def detailedScoresFor (features1 features2 : VehicleFeatures) : DetailedScores :=
  let base : DetailedScores :=
    { GeometricSimilarity :=
        compareGeometricFeatures features1.GeometricFeatures features2.GeometricFeatures
      LightPatternSimilarity :=
        compareLightPatterns features1.LightPatterns features2.LightPatterns
      BumperSimilarity :=
        compareBumperFeatures features1.BumperFeatures features2.BumperFeatures }
  let withColor : DetailedScores :=
    match features1.DaylightFeatures, features2.DaylightFeatures with
    | some d1, some d2 => { base with ColorSimilarity := compareDaylightFeatures d1 d2 }
    | _, _ => base
  match features1.InfraredFeatures, features2.InfraredFeatures with
  | some i1, some i2 => { withColor with ThermalSimilarity := compareInfraredFeatures i1 i2 }
  | _, _ => withColor

/-- The `overallSimilarity` local of `CompareVehicles`. -/
def overallSimilarityFor (features1 features2 : VehicleFeatures) : ℝ :=
  calculateWeightedSimilarity (detailedScoresFor features1 features2) features1.Lighting

/-- `CompareVehicles` from the comparison engine: validates view/lighting
consistency, computes the per-category scores (the lighting-specific scores
only when both sides carry the corresponding feature block), the weighted
overall similarity, the strict-threshold decision and the confidence level. -/
def CompareVehicles (features1 features2 : VehicleFeatures) :
    Except String ComparisonResult :=
  if features1.View ≠ features2.View then
    .error "cannot compare different vehicle views"
  else if features1.Lighting ≠ features2.Lighting then
    .error "cannot compare different lighting conditions"
  else
    .ok { IsSameVehicle :=
            decide (overallSimilarityFor features1 features2 >
              getSimilarityThreshold features1.Lighting)
          SimilarityScore := overallSimilarityFor features1 features2
          ConfidenceLevel :=
            calculateConfidenceLevel (overallSimilarityFor features1 features2)
              features1 features2
          DetailedScores := detailedScoresFor features1 features2 }

end comparator

namespace preprocessor

open models

/-- Image model for the preprocessor (internal/preprocessor/classifier.go and
the quality assessor).  `gray` is the grayscale plane (for multi-channel
input this is the `CvtColor` conversion, an external CV primitive; for
single-channel input it is the image itself).  The colour planes are never
read by the embedded code paths: the classifier's `MeanStdDev` results are
computed into temporary Mats and then discarded in favour of hard-coded
`gocv.Scalar` defaults. -/
structure Mat where
  channels : ℕ
  gray : List (List ℝ)

/-- Mean pixel intensity of a grayscale plane — the value `gocv.MeanStdDev`
reports (used here only to state what the code discards). -/
def matMean (m : List (List ℝ)) : ℝ :=
  let total : ℝ := m.foldl (fun a row => a + row.foldl (fun b x => b + x) 0) 0
  let count : ℕ := m.foldl (fun a row => a + row.length) 0
  total / (count : ℝ)

/-- `calculateBrightness` from internal/preprocessor/classifier.go.  The code
runs `gocv.MeanStdDev(gray, &meanMat, &stddevMat)` but never reads the result
Mats: it constructs `meanScalar := gocv.Scalar{Val1: 128.0}` ("Default mean
value") and returns `meanScalar.Val1 / 255.0`, independent of the image. -/
def calculateBrightness (gray : List (List ℝ)) : ℝ := 128 / 255

/-- `calculateContrastPattern` from internal/preprocessor/classifier.go.  The
code computes the Laplacian and its `MeanStdDev`, discards both, and returns
the hard-coded `stddevScalar := gocv.Scalar{Val1: 50.0}` divided by 100. -/
def calculateContrastPattern (gray : List (List ℝ)) : ℝ := 50 / 100

/-- `calculateColorSaturation` from internal/preprocessor/classifier.go.
Single-channel input returns 0.  Otherwise the code converts to HSV (3
channels, so `len(channels) > 1` always holds), computes `MeanStdDev` of the
saturation channel, discards it, and returns the hard-coded
`meanScalar := gocv.Scalar{Val1: 128.0}` divided by 255. -/
def calculateColorSaturation (img : Mat) : ℝ :=
  if img.channels = 1 then 0 else 128 / 255

/-- `ClassifyLighting` from internal/preprocessor/classifier.go (the `error`
return is always `nil` in the source and is dropped here). -/
def ClassifyLighting (img : Mat) : LightingType × ℝ :=
  let brightnessScore := calculateBrightness img.gray
  let contrastPattern := calculateContrastPattern img.gray
  let colorSaturation := calculateColorSaturation img
  if colorSaturation > 0.1 ∧ brightnessScore > 0.3 then (LightingType.Daylight, 0.8)
  else if contrastPattern > 0.7 ∧ colorSaturation < 0.05 then (LightingType.Infrared, 0.8)
  else (LightingType.Unknown, 0)

/-- `assessBlur` from the quality assessor (`quality.go`).  The code computes
the Laplacian and its `MeanStdDev`, then discards them: `variance := 100.0`
("Default variance value") and `blurThreshold := 100.0`, returning
`math.Min(variance/blurThreshold, 1.0)`, independent of the image. -/
def assessBlur (img : Mat) : ℝ :=
  let variance : ℝ := 100
  let blurThreshold : ℝ := 100
  min (variance / blurThreshold) 1

end preprocessor

namespace results

open models

/-- Go `float64` as it appears at the JSON boundary: a finite real or one of
the IEEE special values `math.NaN()`, `math.Inf(1)`, `math.Inf(-1)`.  This
model is used for the result sanitizer, whose branches test exactly these. -/
inductive GoFloat where
  | finite (x : ℝ)
  | nan
  | posInf
  | negInf

/-- `math.IsNaN(v) || math.IsInf(v, 0)` on the `GoFloat` model. -/
def GoFloat.isNaNOrInf : GoFloat → Bool
  | .finite _ => false
  | _ => true

/-- A `GoFloat` is finite when it is neither NaN nor an infinity. -/
def GoFloat.Finite (g : GoFloat) : Prop := ∃ x, g = GoFloat.finite x

/-- A `GoFloat` lies in `[0,1]` when it is finite with value in `[0,1]`. -/
def GoFloat.InUnitInterval (g : GoFloat) : Prop :=
  ∃ x, g = GoFloat.finite x ∧ 0 ≤ x ∧ x ≤ 1

/-- `sanitizeFloat64` from the models package (results file): NaN/Inf become
the default, every finite value passes through unchanged (no clamping). -/
def sanitizeFloat64 (value : GoFloat) (defaultValue : GoFloat) : GoFloat :=
  if value.isNaNOrInf then defaultValue else value

/-- `DetailedScores` as serialized (results file), `GoFloat` fields. -/
structure DetailedScoresF where
  GeometricSimilarity : GoFloat
  LightPatternSimilarity : GoFloat
  BumperSimilarity : GoFloat
  ColorSimilarity : GoFloat
  ThermalSimilarity : GoFloat

/-- `ProcessingInfo` as serialized (results file), `GoFloat` fields. -/
structure ProcessingInfoF where
  ProcessingTimeMs : ℤ
  Image1Quality : GoFloat
  Image2Quality : GoFloat
  AlignmentQuality : GoFloat
  ViewConsistency : Bool
  LightingConsistency : Bool

/-- `ComparisonResult` as serialized (results file), `GoFloat` fields. -/
structure ComparisonResultF where
  IsSameVehicle : Bool
  SimilarityScore : GoFloat
  ConfidenceLevel : ConfidenceLevel
  DetailedScores : DetailedScoresF
  ProcessingInfo : ProcessingInfoF

/-- `ValidateAndSanitize` from the models package (results file): each float
field is passed through `sanitizeFloat64` with default 0.0. -/
def ValidateAndSanitize (cr : ComparisonResultF) : ComparisonResultF :=
  { cr with
    SimilarityScore := sanitizeFloat64 cr.SimilarityScore (GoFloat.finite 0)
    DetailedScores :=
      { GeometricSimilarity :=
          sanitizeFloat64 cr.DetailedScores.GeometricSimilarity (GoFloat.finite 0)
        LightPatternSimilarity :=
          sanitizeFloat64 cr.DetailedScores.LightPatternSimilarity (GoFloat.finite 0)
        BumperSimilarity :=
          sanitizeFloat64 cr.DetailedScores.BumperSimilarity (GoFloat.finite 0)
        ColorSimilarity :=
          sanitizeFloat64 cr.DetailedScores.ColorSimilarity (GoFloat.finite 0)
        ThermalSimilarity :=
          sanitizeFloat64 cr.DetailedScores.ThermalSimilarity (GoFloat.finite 0) }
    ProcessingInfo :=
      { cr.ProcessingInfo with
        Image1Quality := sanitizeFloat64 cr.ProcessingInfo.Image1Quality (GoFloat.finite 0)
        Image2Quality := sanitizeFloat64 cr.ProcessingInfo.Image2Quality (GoFloat.finite 0)
        AlignmentQuality :=
          sanitizeFloat64 cr.ProcessingInfo.AlignmentQuality (GoFloat.finite 0) } }

end results

namespace extractor

open models

/-- Grayscale image for the plate extractor: dimensions are Go `int`s, pixel
lookup is total (the embedded code only reads in-bounds pixels). -/
structure GrayMat where
  rows : ℤ
  cols : ℤ
  pix : ℤ → ℤ → ℝ

/-- Sum of the pixels of the `w × h` rectangle at `(x, y)`. -/
def rectSum (g : GrayMat) (x y w h : ℤ) : ℝ :=
  (List.range h.toNat).foldl (fun a j =>
    (List.range w.toNat).foldl (fun b i =>
      b + g.pix (y + (j : ℤ)) (x + (i : ℤ))) a) 0

/-- `calculateAverageBrightness` from extractor/plate.go: the `MeanStdDev`
mean of the region of interest. -/
def calculateAverageBrightness (g : GrayMat) (x y w h : ℤ) : ℝ :=
  rectSum g x y w h / ((w * h : ℤ) : ℝ)

/-- A contour found by `gocv.FindContours` (external CV primitive): its
bounding rectangle and its `gocv.ContourArea`. -/
structure Candidate where
  x : ℤ
  y : ℤ
  w : ℤ
  h : ℤ
  contourArea : ℝ

/-- `isValidPlateSize` from extractor/plate.go with the constructor constants
(minPlateWidth 80, maxPlateWidth 400, minPlateHeight 20, maxPlateHeight 120,
aspect ratio in [2.0, 4.5]). -/
def isValidPlateSize (w h : ℤ) : Prop :=
  80 ≤ w ∧ w ≤ 400 ∧ 20 ≤ h ∧ h ≤ 120 ∧
    (2 : ℝ) ≤ (w : ℝ) / (h : ℝ) ∧ (w : ℝ) / (h : ℝ) ≤ 4.5

instance (w h : ℤ) : Decidable (isValidPlateSize w h) := by
  unfold isValidPlateSize; infer_instance

/-- `isReflectiveRegion` from extractor/plate.go. -/
def isReflectiveRegion (g : GrayMat) (x y w h : ℤ) : Bool :=
  decide (calculateAverageBrightness g x y w h > 180)

/-- `scorePlateCandidate` from extractor/plate.go. -/
def scorePlateCandidate (g : GrayMat) (c : Candidate) : ℝ :=
  let avgBrightness := calculateAverageBrightness g c.x c.y c.w c.h
  let brightnessScore := min (avgBrightness / 255) 1
  let area : ℝ := ((c.w * c.h : ℤ) : ℝ)
  let rectangularityScore := c.contourArea / area
  let aspectRatio : ℝ := (c.w : ℝ) / (c.h : ℝ)
  let ratioScore := 1 - |aspectRatio - 3| / 3
  let positionScore : ℝ := if c.y < g.rows / 3 then 0.5 else 1
  let score := brightnessScore * 0.4 + rectangularityScore * 0.3 +
    ratioScore * 0.2 + positionScore * 0.1
  max 0 (min 1 score)

/-- The candidate-selection loop of `DetectLicensePlate`: keep the
highest-scoring size-valid candidate (strictly improving on the running
best, which starts at 0 with no candidate). -/
def pickBestCandidate (g : GrayMat) (cands : List Candidate) :
    Option LicensePlateRegion :=
  (cands.foldl (fun (acc : ℝ × Option LicensePlateRegion) c =>
    if isValidPlateSize c.w c.h then
      let score := scorePlateCandidate g c
      if score > acc.1 then
        (score, some { Bounds := { X := c.x, Y := c.y, Width := c.w, Height := c.h }
                       Confidence := score
                       AvgBrightness := calculateAverageBrightness g c.x c.y c.w c.h
                       IsReflective := isReflectiveRegion g c.x c.y c.w c.h })
      else acc
    else acc) (0, none)).2

/-- The iteration values of a Go loop `for v := start; v < upper; v += step`
with positive `step`. -/
def stepRange (start upper step : ℤ) : List ℤ :=
  (List.range ((upper - start + step - 1) / step).toNat).map
    (fun i => start + step * (i : ℤ))

/-- The sliding-window scan of `findBrightestRectangularRegion` from
extractor/plate.go: windows of plate-like proportions over the lower
two-thirds of the image, keeping the strictly brightest (the running maximum
starts at 0 with no region).  `height := int(float64(width) / 3.0)` truncates
toward zero and `width` is positive, so it is `width / 3` on `ℤ`. -/
def scanBrightest (g : GrayMat) : Option LicensePlateRegion :=
  ((stepRange (g.rows / 3) (g.rows - 20) 10).foldl (fun acc y =>
    (stepRange 0 (g.cols - 80) 10).foldl (fun acc x =>
      (stepRange 80 (min 401 (g.cols - x)) 20).foldl
        (fun (acc : ℝ × Option LicensePlateRegion) width =>
          let height := width / 3
          if height < 20 ∨ height > 120 ∨ y + height ≥ g.rows then acc
          else
            let brightness := calculateAverageBrightness g x y width height
            if brightness > acc.1 then
              (brightness,
               some { Bounds := { X := x, Y := y, Width := width, Height := height }
                      Confidence := brightness / 255
                      AvgBrightness := brightness
                      IsReflective := decide (brightness > 180) })
            else acc) acc) acc) ((0 : ℝ), none)).2

/-- The ultimate fallback of `findBrightestRectangularRegion`: a fixed
bottom-centre region (`width := minPlateWidth * 2`, 3:1 proportions),
confidence 0.1, brightness 0, not reflective. -/
def bottomCenterFallback (g : GrayMat) : LicensePlateRegion :=
  let width : ℤ := 80 * 2
  let height : ℤ := width / 3
  let x := (g.cols - width) / 2
  let y := g.rows - height - 20
  { Bounds := { X := x, Y := y, Width := width, Height := height }
    Confidence := 0.1
    AvgBrightness := 0
    IsReflective := false }

/-- `findBrightestRectangularRegion` from extractor/plate.go: the window scan
with the bottom-centre fallback when the scan keeps no region. -/
def findBrightestRectangularRegion (g : GrayMat) : LicensePlateRegion :=
  match scanBrightest g with
  | some r => r
  | none => bottomCenterFallback g

/-- `DetectLicensePlate` from extractor/plate.go.  The thresholding and
contour pass is an external CV primitive; its output is the candidate list.
The Go function's error result is always `nil`: the only return statement is
`return bestCandidate, nil` after the fallbacks. -/
def DetectLicensePlate (g : GrayMat) (cands : List Candidate) :
    Except String LicensePlateRegion :=
  match pickBestCandidate g cands with
  | some best => .ok best
  | none => .ok (findBrightestRectangularRegion g)

/-- `findFrontReferencePoints` from extractor/geometric.go.  The headlight
centroids and grille centre come from CV-primitive detectors
(`detectHeadlightRegions`, `detectGrilleCenter`) and are passed in. -/
def findFrontReferencePoints (cols rows : ℤ) (headlights : List Point2D)
    (grilleCenter : Point2D) : List Point2D :=
  let points := headlights
  let points := points ++
    (if grilleCenter.X > 0 ∧ grilleCenter.Y > 0 then [grilleCenter] else [])
  points ++ [⟨0, 0⟩, ⟨(cols : ℝ), 0⟩, ⟨0, (rows : ℝ)⟩, ⟨(cols : ℝ), (rows : ℝ)⟩]

/-- `findRearReferencePoints` from extractor/geometric.go.  The taillight
centroids and bumper-line centre come from CV-primitive detectors
(`detectTaillightRegions`, `detectRearBumperLine`) and are passed in. -/
def findRearReferencePoints (cols rows : ℤ) (taillights : List Point2D)
    (bumperLine : Point2D) : List Point2D :=
  let points := taillights
  let points := points ++
    (if bumperLine.X > 0 ∧ bumperLine.Y > 0 then [bumperLine] else [])
  points ++ [⟨0, 0⟩, ⟨(cols : ℝ), 0⟩, ⟨0, (rows : ℝ)⟩, ⟨(cols : ℝ), (rows : ℝ)⟩]

/-- `extractReferencePoints` from extractor/geometric.go: dispatch on the
view (unknown views yield the initial empty list). -/
def extractReferencePoints (cols rows : ℤ) (view : VehicleView)
    (headlights : List Point2D) (grilleCenter : Point2D)
    (taillights : List Point2D) (bumperLine : Point2D) : List Point2D :=
  match view with
  | VehicleView.Front => findFrontReferencePoints cols rows headlights grilleCenter
  | VehicleView.Rear => findRearReferencePoints cols rows taillights bumperLine
  | VehicleView.Unknown => []

end extractor

namespace vehiclecompare

open models

/-- `extractInfraredFeatures` from the service in cmd/main.go ("Simplified
infrared feature extraction"): constant vectors, no `IRSignature` (the Go
struct literal leaves the pointer field nil). -/
def extractInfraredFeatures (img : preprocessor.Mat) : InfraredFeatures :=
  { ThermalSignature := [0.3, 0.7, 0.5]
    ReflectiveElements := []
    HeatPatterns := []
    MaterialSignature := [0.6, 0.4, 0.8]
    IRSignature := none }

end vehiclecompare

section Scaffolding

open models

/-- A feature set with Go zero values everywhere (all lists empty, all
numeric fields 0, both lighting-specific blocks absent), with a chosen view
and lighting.  This is what feeding structurally empty extraction output to
the engine looks like. -/
def emptyFeatures (view : VehicleView) (lighting : LightingType) : VehicleFeatures :=
  { View := view
    Lighting := lighting
    GeometricFeatures :=
      { VehicleProportions := { WidthHeightRatio := 0, UpperLowerRatio := 0, LicensePlateRatio := 0 }
        StructuralElements := []
        ReferencePoints := [] }
    LightPatterns :=
      { LightElements := []
        PatternSignature := []
        LightConfiguration := { NumElements := 0, Symmetry := 0, Spacing := 0 } }
    BumperFeatures :=
      { ContourSignature := []
        TextureFeatures := []
        MountingPoints := []
        LicensePlateArea := { X := 0, Y := 0, Width := 0, Height := 0 } }
    DaylightFeatures := none
    InfraredFeatures := none
    ExtractionQuality := 0 }

/-- A 2×2 all-black three-channel image: its grayscale plane is all zeros. -/
def blackRGB : preprocessor.Mat := { channels := 3, gray := [[0, 0], [0, 0]] }

/-- A comparison result whose similarity score is the finite value 2.0 (all
other float fields finite 0). -/
def outOfRangeResult : results.ComparisonResultF :=
  { IsSameVehicle := false
    SimilarityScore := results.GoFloat.finite 2
    ConfidenceLevel := models.ConfidenceLevel.ConfidenceLow
    DetailedScores :=
      { GeometricSimilarity := results.GoFloat.finite 0
        LightPatternSimilarity := results.GoFloat.finite 0
        BumperSimilarity := results.GoFloat.finite 0
        ColorSimilarity := results.GoFloat.finite 0
        ThermalSimilarity := results.GoFloat.finite 0 }
    ProcessingInfo :=
      { ProcessingTimeMs := 0
        Image1Quality := results.GoFloat.finite 0
        Image2Quality := results.GoFloat.finite 0
        AlignmentQuality := results.GoFloat.finite 0
        ViewConsistency := false
        LightingConsistency := false } }

/-- Sum of squares via the engine's norm accumulation loop. -/
def sumSquares (v : List ℝ) : ℝ := comparator.normFold v

/-- Feature sets whose numeric content is nondegenerate: positive proportion
ratios, structural and light elements of positive size, nonempty
reference-point and mounting-point sets, nonzero pattern-signature and
bumper-texture vectors (or genuinely absent, i.e. empty), a positive light
count and a plate area of positive size.  Real extraction output satisfies
all of this; the conditions exclude exactly the zero-value defaults under
which the engine substitutes neutral 0.5 scores. -/
def Nondegenerate (f : VehicleFeatures) : Prop :=
  0 < f.GeometricFeatures.VehicleProportions.WidthHeightRatio ∧
  0 < f.GeometricFeatures.VehicleProportions.UpperLowerRatio ∧
  (∀ e ∈ f.GeometricFeatures.StructuralElements, 0 < e.Size) ∧
  f.GeometricFeatures.ReferencePoints ≠ [] ∧
  (f.LightPatterns.PatternSignature = [] ∨ sumSquares f.LightPatterns.PatternSignature ≠ 0) ∧
  (∀ e ∈ f.LightPatterns.LightElements, 0 < e.Size) ∧
  0 < f.LightPatterns.LightConfiguration.NumElements ∧
  (f.BumperFeatures.TextureFeatures = [] ∨ sumSquares f.BumperFeatures.TextureFeatures ≠ 0) ∧
  f.BumperFeatures.MountingPoints ≠ [] ∧
  0 < f.BumperFeatures.LicensePlateArea.Width * f.BumperFeatures.LicensePlateArea.Height

/-- A concrete nondegenerate daylight front feature set (one headlight
element, one reference point, nonzero signatures, a 4×2 plate area). -/
def sampleFeatures : VehicleFeatures :=
  { View := VehicleView.Front
    Lighting := LightingType.Daylight
    GeometricFeatures :=
      { VehicleProportions :=
          { WidthHeightRatio := 1.5, UpperLowerRatio := 1.2, LicensePlateRatio := 0.3 }
        StructuralElements := [{ EType := "headlight", Position := ⟨10, 20⟩, Size := 100 }]
        ReferencePoints := [⟨0, 0⟩] }
    LightPatterns :=
      { LightElements :=
          [{ Position := ⟨5, 5⟩, Shape := LightShape.ShapeRound, Size := 50,
             Intensity := 0.8, LType := LightType.TypeHeadlight }]
        PatternSignature := [0.5]
        LightConfiguration := { NumElements := 1, Symmetry := 1, Spacing := 0 } }
    BumperFeatures :=
      { ContourSignature := []
        TextureFeatures := [0.5, 0.3, 0.7]
        MountingPoints := [⟨1, 1⟩]
        LicensePlateArea := { X := 10, Y := 10, Width := 4, Height := 2 } }
    DaylightFeatures := none
    InfraredFeatures := none
    ExtractionQuality := 0 }

/-- Sum over paired rows and cells of the absolute cell difference — the
"total absolute per-cell difference" of two equally-dimensioned grids. -/
def sumAbsDiff (map1 map2 : List (List ℝ)) : ℝ :=
  ((map1.zip map2).map (fun rows =>
    ((rows.1.zip rows.2).map (fun c => |c.1 - c.2|)).sum)).sum

/-- The result the engine produces for the identity comparison of the
all-empty daylight feature set: below the 0.75 daylight threshold because
empty/zero features draw neutral 0.5 sub-scores. -/
def emptyCompareResult : ComparisonResult :=
  { IsSameVehicle := false
    SimilarityScore := 0.682
    ConfidenceLevel := ConfidenceLevel.ConfidenceLow
    DetailedScores :=
      { GeometricSimilarity := 0.74
        LightPatternSimilarity := 0.96
        BumperSimilarity := 0.86
        ColorSimilarity := 0
        ThermalSimilarity := 0 } }

/-- A 10×10 all-black grayscale image (too small and too dark for any
detection tier before the ultimate fallback). -/
def black10 : extractor.GrayMat := { rows := 10, cols := 10, pix := fun _ _ => 0 }

end Scaffolding

section ClaimC1

open models comparator

/-- Claim C1: for every pair of feature sets, `CompareVehicles` reports an
incompatibility error (and hence produces no `ComparisonResult`) whenever the
two views differ or the two lighting labels differ; the check lives in the
comparison engine itself, so it applies to feature sets constructed out of
band. -/
theorem compareVehicles_rejects_incompatible (f1 f2 : VehicleFeatures)
    (h : f1.View ≠ f2.View ∨ f1.Lighting ≠ f2.Lighting) :
    ∃ e, CompareVehicles f1 f2 = Except.error e := by
  unfold CompareVehicles
  rcases h with h | h
  · exact ⟨_, by rw [if_pos h]⟩
  · by_cases hv : f1.View ≠ f2.View
    · exact ⟨_, by rw [if_pos hv]⟩
    · exact ⟨_, by rw [if_neg hv, if_pos h]⟩

/-- Witness for C1: front-view versus rear-view feature sets are rejected. -/
theorem compareVehicles_rejects_incompatible_witness :
    ∃ e, CompareVehicles (emptyFeatures VehicleView.Front LightingType.Daylight)
      (emptyFeatures VehicleView.Rear LightingType.Daylight) = Except.error e :=
  compareVehicles_rejects_incompatible _ _ (Or.inl (by decide))

end ClaimC1

section ClaimC2

open models comparator

/-- Claim C2: whenever `CompareVehicles` produces a result, the same-vehicle
decision is `overallSimilarity > threshold` with strict inequality, where the
threshold is 0.75 for daylight and 0.70 for infrared; in particular an
overall similarity of exactly 0.75 under daylight is not a same-vehicle
verdict. -/
theorem compareVehicles_strict_threshold (f1 f2 : VehicleFeatures)
    (r : ComparisonResult) (h : CompareVehicles f1 f2 = Except.ok r) :
    (r.IsSameVehicle = true ↔ r.SimilarityScore > getSimilarityThreshold f1.Lighting) ∧
      getSimilarityThreshold LightingType.Daylight = 0.75 ∧
      getSimilarityThreshold LightingType.Infrared = 0.70 ∧
      (f1.Lighting = LightingType.Daylight → r.SimilarityScore = 0.75 →
        r.IsSameVehicle = false) := by
  unfold CompareVehicles at h
  by_cases hv : f1.View ≠ f2.View
  · rw [if_pos hv] at h; exact absurd h (by simp)
  · rw [if_neg hv] at h
    by_cases hl : f1.Lighting ≠ f2.Lighting
    · rw [if_pos hl] at h; exact absurd h (by simp)
    · rw [if_neg hl] at h
      have hr := Except.ok.inj h
      subst hr
      refine ⟨by simp [decide_eq_true_eq], by simp [getSimilarityThreshold],
        by simp [getSimilarityThreshold], ?_⟩
      intro hday hsim
      have hsim' : overallSimilarityFor f1 f2 = 0.75 := by simpa using hsim
      show decide (overallSimilarityFor f1 f2 > getSimilarityThreshold f1.Lighting) = false
      rw [hsim', hday]
      norm_num [getSimilarityThreshold]

end ClaimC2

section ClaimC4

open models preprocessor

/-- Claim C4 (code bug): `ClassifyLighting` does not compute brightness,
contrast pattern or saturation from the image — the `MeanStdDev` results are
discarded in favour of hard-coded defaults.  On an all-black three-channel
image the grayscale mean is 0 (so the claimed rule `saturation > 0.1 AND
brightness > 0.3` cannot fire — brightness would be 0), yet the code returns
Daylight with confidence 0.8, and `calculateBrightness` returns 128/255 for
every image. -/
theorem classifyLighting_ignores_pixels :
    ClassifyLighting blackRGB = (LightingType.Daylight, 0.8) ∧
      matMean blackRGB.gray = 0 ∧
      ¬ (matMean blackRGB.gray / 255 > 0.3) ∧
      (∀ g, calculateBrightness g = 128 / 255) := by
  refine ⟨?_, ?_, ?_, fun g => rfl⟩
  · unfold ClassifyLighting calculateBrightness calculateColorSaturation blackRGB
    norm_num
  · unfold matMean blackRGB
    simp
  · unfold matMean blackRGB
    norm_num

end ClaimC4

section ClaimC5

open preprocessor

/-- Claim C5 (code bug): the blur sub-score is not the Laplacian variance
over 100 — `assessBlur` hard-codes `variance := 100.0` and returns 1.0 for
every input, so a perfectly sharp image and a constant (maximally blurred,
Laplacian variance 0, claimed score 0.0) image receive the same score. -/
theorem assessBlur_constant :
    (∀ img : preprocessor.Mat, assessBlur img = 1) ∧
      assessBlur { channels := 1, gray := [[5, 5], [5, 5]] } = 1 := by
  have h : ∀ img : preprocessor.Mat, assessBlur img = 1 := by
    intro img
    unfold assessBlur
    norm_num
  exact ⟨h, h _⟩

end ClaimC5

section ClaimC6

open results

/-- Counterexample for C6: `ValidateAndSanitize` passes the finite similarity
score 2.0 through unchanged, so a similarity field can leave the sanitizer
outside `[0,1]` — there is no clamping. -/
theorem validateAndSanitize_no_clamp :
    (ValidateAndSanitize outOfRangeResult).SimilarityScore = GoFloat.finite 2 ∧
      ¬ (ValidateAndSanitize outOfRangeResult).SimilarityScore.InUnitInterval := by
  constructor
  · rfl
  · intro hin
    rcases hin with ⟨x, hx, _, hx1⟩
    have : (2 : ℝ) = x := by
      have := congrArg (fun g => match g with | GoFloat.finite v => v | _ => 0)
        (show GoFloat.finite 2 = GoFloat.finite x from hx)
      simpa using this
    rw [← this] at hx1
    norm_num at hx1

/-- Sanitizing with a finite default always yields a finite value. -/
theorem sanitizeFloat64_finite (v : GoFloat) (d : ℝ) :
    (sanitizeFloat64 v (GoFloat.finite d)).Finite := by
  cases v <;> simp [sanitizeFloat64, GoFloat.isNaNOrInf, GoFloat.Finite]

/-- Claim C6 (amended): after `ValidateAndSanitize` every float field of the
result is finite — NaN and infinities are replaced by 0.0 — but finite values
pass through unchanged, so similarity/score/quality fields are not clamped
into `[0,1]`. -/
theorem validateAndSanitize_all_finite (cr : ComparisonResultF) :
    (ValidateAndSanitize cr).SimilarityScore.Finite ∧
      (ValidateAndSanitize cr).DetailedScores.GeometricSimilarity.Finite ∧
      (ValidateAndSanitize cr).DetailedScores.LightPatternSimilarity.Finite ∧
      (ValidateAndSanitize cr).DetailedScores.BumperSimilarity.Finite ∧
      (ValidateAndSanitize cr).DetailedScores.ColorSimilarity.Finite ∧
      (ValidateAndSanitize cr).DetailedScores.ThermalSimilarity.Finite ∧
      (ValidateAndSanitize cr).ProcessingInfo.Image1Quality.Finite ∧
      (ValidateAndSanitize cr).ProcessingInfo.Image2Quality.Finite ∧
      (ValidateAndSanitize cr).ProcessingInfo.AlignmentQuality.Finite := by
  refine ⟨?_, ?_, ?_, ?_, ?_, ?_, ?_, ?_, ?_⟩ <;>
    exact sanitizeFloat64_finite _ _

end ClaimC6

section ClaimC9

open models extractor

/-- Claim C9: for every image and every known view (front or rear), the
reference-point set contains the four image corners `(0,0)`, `(width,0)`,
`(0,height)` and `(width,height)`, so it is never empty even when no
landmarks were detected. -/
theorem referencePoints_contain_corners (cols rows : ℤ) (view : VehicleView)
    (headlights : List Point2D) (grilleCenter : Point2D)
    (taillights : List Point2D) (bumperLine : Point2D)
    (h : view = VehicleView.Front ∨ view = VehicleView.Rear) :
    (⟨0, 0⟩ : Point2D) ∈
        extractReferencePoints cols rows view headlights grilleCenter taillights bumperLine ∧
      (⟨(cols : ℝ), 0⟩ : Point2D) ∈
        extractReferencePoints cols rows view headlights grilleCenter taillights bumperLine ∧
      (⟨0, (rows : ℝ)⟩ : Point2D) ∈
        extractReferencePoints cols rows view headlights grilleCenter taillights bumperLine ∧
      (⟨(cols : ℝ), (rows : ℝ)⟩ : Point2D) ∈
        extractReferencePoints cols rows view headlights grilleCenter taillights bumperLine := by
  rcases h with h | h <;> subst h <;>
    refine ⟨?_, ?_, ?_, ?_⟩ <;>
    · unfold extractReferencePoints findFrontReferencePoints findRearReferencePoints
      simp [List.mem_append]

/-- Witness for C9: a 100×50 front-view image with no detected landmarks
still yields all four corners. -/
theorem referencePoints_contain_corners_witness :
    (⟨0, 0⟩ : Point2D) ∈
        extractReferencePoints 100 50 VehicleView.Front [] ⟨0, 0⟩ [] ⟨0, 0⟩ ∧
      (⟨(100 : ℝ), 0⟩ : Point2D) ∈
        extractReferencePoints 100 50 VehicleView.Front [] ⟨0, 0⟩ [] ⟨0, 0⟩ ∧
      (⟨0, (50 : ℝ)⟩ : Point2D) ∈
        extractReferencePoints 100 50 VehicleView.Front [] ⟨0, 0⟩ [] ⟨0, 0⟩ ∧
      (⟨(100 : ℝ), (50 : ℝ)⟩ : Point2D) ∈
        extractReferencePoints 100 50 VehicleView.Front [] ⟨0, 0⟩ [] ⟨0, 0⟩ := by
  have h := referencePoints_contain_corners 100 50 VehicleView.Front [] ⟨0, 0⟩ [] ⟨0, 0⟩
    (Or.inl rfl)
  simpa using h

end ClaimC9

section ClaimC10

open models comparator vehiclecompare

/-- Claim C10: the service's infrared extraction returns constant thermal and
material vectors with no `IRSignature`; consequently, for features produced
by the service pipeline the engine's `compareIRSignatures` path is never
taken and the thermal score always comes from the basic fallback thermal
comparison. -/
theorem service_infrared_never_uses_ir_signatures :
    (∀ img, extractInfraredFeatures img =
      { ThermalSignature := [0.3, 0.7, 0.5]
        ReflectiveElements := []
        HeatPatterns := []
        MaterialSignature := [0.6, 0.4, 0.8]
        IRSignature := none }) ∧
      (∀ img1 img2,
        compareInfraredFeatures (extractInfraredFeatures img1) (extractInfraredFeatures img2) =
          compareInfraredFallback (extractInfraredFeatures img1)
            (extractInfraredFeatures img2)) := by
  exact ⟨fun img => rfl, fun img1 img2 => rfl⟩

end ClaimC10

section Helpers

open models comparator

theorem safeFloat64_le_one (v d : ℝ) : safeFloat64 v d ≤ 1 := by
  unfold safeFloat64
  exact max_le zero_le_one (min_le_left 1 v)

theorem safeFloat64_nonneg (v d : ℝ) : 0 ≤ safeFloat64 v d := by
  unfold safeFloat64
  exact le_max_left 0 _

theorem safeFloat64_eq (v d : ℝ) (h0 : 0 ≤ v) (h1 : v ≤ 1) : safeFloat64 v d = v := by
  unfold safeFloat64
  rw [min_eq_right h1, max_eq_right h0]

theorem le_foldl_step {α : Type} (f : ℝ → α → ℝ) (hmono : ∀ b x, b ≤ f b x) :
    ∀ (l : List α) (b : ℝ), b ≤ l.foldl f b := by
  intro l
  induction l with
  | nil => intro b; simp
  | cons x t ih =>
      intro b
      calc b ≤ f b x := hmono b x
        _ ≤ t.foldl f (f b x) := ih (f b x)
        _ = (x :: t).foldl f b := by rw [List.foldl_cons]

theorem foldl_step_le_one {α : Type} (f : ℝ → α → ℝ)
    (hbound : ∀ b x, b ≤ 1 → f b x ≤ 1) :
    ∀ (l : List α) (b : ℝ), b ≤ 1 → l.foldl f b ≤ 1 := by
  intro l
  induction l with
  | nil => intro b hb; simpa using hb
  | cons x t ih =>
      intro b hb
      rw [List.foldl_cons]
      exact ih (f b x) (hbound b x hb)

theorem one_le_foldl_step {α : Type} (f : ℝ → α → ℝ)
    (hmono : ∀ b x, b ≤ f b x) (hbound : ∀ b x, b ≤ 1 → f b x ≤ 1) (x0 : α)
    (hx0 : ∀ b, b ≤ 1 → 1 ≤ f b x0) :
    ∀ (l : List α) (b : ℝ), b ≤ 1 → x0 ∈ l → 1 ≤ l.foldl f b := by
  intro l
  induction l with
  | nil => intro b _ hmem; cases hmem
  | cons x t ih =>
      intro b hb hmem
      rw [List.foldl_cons]
      rcases List.mem_cons.mp hmem with h | h
      · rw [← h]
        calc (1 : ℝ) ≤ f b x0 := hx0 b hb
          _ ≤ t.foldl f (f b x0) := le_foldl_step f hmono t _
      · exact ih (f b x) (hbound b x hb) h

theorem foldl_best_eq_one {α : Type} (f : ℝ → α → ℝ)
    (hmono : ∀ b x, b ≤ f b x) (hbound : ∀ b x, b ≤ 1 → f b x ≤ 1) (x0 : α)
    (hx0 : ∀ b, b ≤ 1 → 1 ≤ f b x0) (l : List α) (hmem : x0 ∈ l) :
    l.foldl f 0 = 1 :=
  le_antisymm (foldl_step_le_one f hbound l 0 zero_le_one)
    (one_le_foldl_step f hmono hbound x0 hx0 l 0 zero_le_one hmem)

theorem foldl_structuralAccum_ones (elements2 : List StructuralElement) :
    ∀ (l : List StructuralElement) (t : ℝ) (c : ℕ),
      (∀ x ∈ l, bestStructuralMatch x elements2 = 1) →
      l.foldl (structuralAccum elements2) (t, c) = (t + l.length, c + l.length) := by
  intro l
  induction l with
  | nil => intro t c _; simp
  | cons x s ih =>
      intro t c h
      have hx := h x (List.mem_cons_self x s)
      rw [List.foldl_cons]
      have hstep : structuralAccum elements2 (t, c) x = (t + 1, c + 1) := by
        unfold structuralAccum
        rw [hx]
        norm_num
      rw [hstep, ih (t + 1) (c + 1) (fun y hy => h y (List.mem_cons_of_mem x hy))]
      refine Prod.ext ?_ ?_ <;> simp <;> push_cast <;> ring

theorem foldl_lightAccum_ones (elements2 : List LightElement) :
    ∀ (l : List LightElement) (t : ℝ) (c : ℕ),
      (∀ x ∈ l, bestLightMatch x elements2 = 1) →
      l.foldl (lightAccum elements2) (t, c) = (t + l.length, c + l.length) := by
  intro l
  induction l with
  | nil => intro t c _; simp
  | cons x s ih =>
      intro t c h
      have hx := h x (List.mem_cons_self x s)
      rw [List.foldl_cons]
      have hstep : lightAccum elements2 (t, c) x = (t + 1, c + 1) := by
        unfold lightAccum
        rw [hx]
        norm_num
      rw [hstep, ih (t + 1) (c + 1) (fun y hy => h y (List.mem_cons_of_mem x hy))]
      refine Prod.ext ?_ ?_ <;> simp <;> push_cast <;> ring

theorem loopDistance_nonneg (p1 p2 : Point2D) : 0 ≤ loopDistance p1 p2 :=
  Real.sqrt_nonneg _

theorem loopDistance_self (p : Point2D) : loopDistance p p = 0 := by
  unfold loopDistance
  simp

/-- The running minimum over a list, started from `some m0`, is a `some m`
with `m` at most `m0`, at most every later distance, and equal to one of
them. -/
theorem foldl_minStep_spec (p1 : Point2D) :
    ∀ (l : List Point2D) (m0 : ℝ),
      ∃ m, l.foldl (minStep p1) (some m0) = some m ∧ m ≤ m0 ∧
        (∀ q ∈ l, m ≤ loopDistance p1 q) ∧
        (m = m0 ∨ ∃ q ∈ l, m = loopDistance p1 q) := by
  intro l
  induction l with
  | nil => intro m0; exact ⟨m0, by simp, le_refl m0, by simp, Or.inl rfl⟩
  | cons q t ih =>
      intro m0
      rw [List.foldl_cons]
      have hdef : minStep p1 (some m0) q =
          if loopDistance p1 q < m0 then some (loopDistance p1 q) else some m0 := rfl
      have hstep : ∃ m1, minStep p1 (some m0) q = some m1 ∧ m1 ≤ m0 ∧
          m1 ≤ loopDistance p1 q ∧ (m1 = m0 ∨ m1 = loopDistance p1 q) := by
        by_cases hlt : loopDistance p1 q < m0
        · exact ⟨loopDistance p1 q, by rw [hdef, if_pos hlt], le_of_lt hlt, le_refl _, Or.inr rfl⟩
        · exact ⟨m0, by rw [hdef, if_neg hlt], le_refl _, le_of_not_lt hlt, Or.inl rfl⟩
      obtain ⟨m1, hm1eq, hm1le, hm1d, hm1or⟩ := hstep
      obtain ⟨m, hmeq, hmle, hmall, hmor⟩ := ih m1
      rw [hm1eq]
      refine ⟨m, hmeq, le_trans hmle hm1le, ?_, ?_⟩
      · intro q' hq'
        rcases List.mem_cons.mp hq' with h | h
        · subst h; exact le_trans hmle hm1d
        · exact hmall q' h
      · rcases hmor with h | ⟨q', hq', h⟩
        · subst h
          rcases hm1or with h | h
          · exact Or.inl h
          · exact Or.inr ⟨q, List.mem_cons_self q t, h⟩
        · exact Or.inr ⟨q', List.mem_cons_of_mem q hq', h⟩

/-- A point of the set has running-minimum distance exactly 0 to the set. -/
theorem minDistanceTo_self_zero (p : Point2D) (ps : List Point2D) (hp : p ∈ ps) :
    minDistanceTo p ps = some 0 := by
  cases ps with
  | nil => cases hp
  | cons q t =>
      unfold minDistanceTo
      rw [List.foldl_cons]
      have hfirst : minStep p none q = some (loopDistance p q) := rfl
      rw [hfirst]
      obtain ⟨m, hmeq, hmle, hmall, hmor⟩ := foldl_minStep_spec p t (loopDistance p q)
      rw [hmeq]
      have hm0 : 0 ≤ m := by
        rcases hmor with h | ⟨q', _, h⟩
        · rw [h]; exact loopDistance_nonneg p q
        · rw [h]; exact loopDistance_nonneg p q'
      have hmz : m ≤ 0 := by
        rcases List.mem_cons.mp hp with h | h
        · have hq : loopDistance p q = 0 := by rw [← h]; exact loopDistance_self p
          exact le_of_le_of_eq hmle hq
        · exact le_of_le_of_eq (hmall p h) (loopDistance_self p)
      rw [le_antisymm hmz hm0]

theorem foldl_pointMatchAccum_zeros (ps : List Point2D) (θ : ℝ) (hθ : 0 < θ) :
    ∀ (l : List Point2D) (t : ℝ) (c : ℕ),
      (∀ p ∈ l, minDistanceTo p ps = some 0) →
      l.foldl (pointMatchAccum ps θ) (t, c) = (t, c + l.length) := by
  intro l
  induction l with
  | nil => intro t c _; simp
  | cons x s ih =>
      intro t c h
      rw [List.foldl_cons]
      have hstep : pointMatchAccum ps θ (t, c) x = (t, c + 1) := by
        unfold pointMatchAccum
        rw [h x (List.mem_cons_self x s)]
        show (if (0 : ℝ) < θ then (t + 0, c + 1) else (t, c)) = (t, c + 1)
        rw [if_pos hθ, add_zero]
      rw [hstep, ih t (c + 1) (fun y hy => h y (List.mem_cons_of_mem x hy))]
      refine Prod.ext rfl ?_
      simp only [List.length_cons]
      omega

theorem clamp01_eq (v : ℝ) (h0 : 0 ≤ v) (h1 : v ≤ 1) : max 0 (min 1 v) = v := by
  rw [min_eq_right h1, max_eq_right h0]

theorem safeFloat64_one (d : ℝ) : safeFloat64 1 d = 1 :=
  safeFloat64_eq 1 d zero_le_one le_rfl

theorem dotFold_self (v : List ℝ) : dotFold v v = normFold v := by
  unfold dotFold normFold
  suffices h : ∀ a : ℝ, (v.zip v).foldl (fun a p => a + p.1 * p.2) a =
      v.foldl (fun a x => a + x * x) a from h 0
  induction v with
  | nil => intro a; simp
  | cons x t ih =>
      intro a
      simp only [List.zip_cons_cons, List.foldl_cons]
      exact ih (a + x * x)

theorem normFold_nonneg (v : List ℝ) : 0 ≤ normFold v := by
  unfold normFold
  suffices h : ∀ a : ℝ, 0 ≤ a → 0 ≤ v.foldl (fun a x => a + x * x) a from h 0 le_rfl
  induction v with
  | nil => intro a ha; simpa using ha
  | cons x t ih =>
      intro a ha
      rw [List.foldl_cons]
      exact ih (a + x * x) (add_nonneg ha (mul_self_nonneg x))

theorem compareSignatures_self (v : List ℝ) (h : v = [] ∨ normFold v ≠ 0) :
    compareSignatures v v = 1 := by
  unfold compareSignatures
  rw [if_neg (by simp)]
  rcases h with h | h
  · subst h
    simp
  · have hv : ¬ v.length = 0 := by
      intro h0
      exact h (by rw [List.length_eq_zero.mp h0]; rfl)
    rw [if_neg hv, if_neg (by simp [h]), if_neg ?hden]
    case hden =>
      have := Real.mul_self_sqrt (normFold_nonneg v)
      intro hc
      rw [this] at hc
      exact h hc
    rw [dotFold_self, Real.mul_self_sqrt (normFold_nonneg v), div_self h]
    exact safeFloat64_one 0

theorem structuralPairScore_le_one (e1 e2 : StructuralElement) :
    structuralPairScore e1 e2 ≤ 1 := by
  unfold structuralPairScore
  exact safeFloat64_le_one _ _

theorem structuralPairScore_self (e : StructuralElement) (h : 0 < e.Size) :
    structuralPairScore e e = 1 := by
  simp only [structuralPairScore, sub_self, mul_zero, add_zero, Real.sqrt_zero, neg_zero,
    zero_div, Real.exp_zero, max_self, abs_zero, sub_zero, gt_iff_lt, h, if_true]
  norm_num [safeFloat64, min_def, max_def]

theorem bestStructuralMatch_self (es : List StructuralElement) (e : StructuralElement)
    (he : e ∈ es) (hsz : ∀ x ∈ es, 0 < x.Size) : bestStructuralMatch e es = 1 := by
  unfold bestStructuralMatch
  refine foldl_best_eq_one _ ?_ ?_ e ?_ es he
  · intro b x
    dsimp only
    split
    · split
      · next hgt => exact le_of_lt hgt
      · exact le_refl b
    · exact le_refl b
  · intro b x hb
    dsimp only
    split
    · split
      · exact structuralPairScore_le_one e x
      · exact hb
    · exact hb
  · intro b hb
    dsimp only
    rw [if_pos rfl, structuralPairScore_self e (hsz e he)]
    split
    · exact le_refl 1
    · next hng => exact le_of_not_lt hng

theorem compareStructuralElements_self (es : List StructuralElement)
    (hsz : ∀ e ∈ es, 0 < e.Size) : compareStructuralElements es es = 1 := by
  rcases hes : es with _ | ⟨e, t⟩
  · unfold compareStructuralElements
    norm_num
  · unfold compareStructuralElements
    have hlen : ¬ (e :: t).length = 0 := by simp
    rw [if_neg (fun hc => hlen hc.1), if_neg (by rintro (hc | hc) <;> exact hlen hc)]
    rw [foldl_structuralAccum_ones (e :: t) (e :: t) 0 0
      (fun x hx => bestStructuralMatch_self (e :: t) x hx (hes ▸ hsz))]
    show (if (0 + (e :: t).length : ℕ) = 0 then (0 : ℝ)
      else safeFloat64 ((0 + ((e :: t).length : ℝ)) / ((0 + (e :: t).length : ℕ) : ℝ)) 0.5) = 1
    rw [if_neg (by simp)]
    rw [zero_add, Nat.zero_add, div_self (by exact_mod_cast hlen)]
    exact safeFloat64_one 0.5

theorem compareSingleLightElement_le_one (e1 e2 : LightElement) :
    compareSingleLightElement e1 e2 ≤ 1 := by
  unfold compareSingleLightElement
  split
  · exact zero_le_one
  · exact safeFloat64_le_one _ _

theorem compareSingleLightElement_self (e : LightElement) (h : 0 < e.Size) :
    compareSingleLightElement e e = 1 := by
  unfold compareSingleLightElement
  rw [if_neg (by simp)]
  simp only [sub_self, mul_zero, add_zero, Real.sqrt_zero, neg_zero, zero_div,
    Real.exp_zero, max_self, abs_zero, sub_zero, gt_iff_lt, h, if_true]
  norm_num [safeFloat64, min_def, max_def]

theorem bestLightMatch_self (es : List LightElement) (e : LightElement)
    (he : e ∈ es) (hsz : ∀ x ∈ es, 0 < x.Size) : bestLightMatch e es = 1 := by
  unfold bestLightMatch
  refine foldl_best_eq_one _ ?_ ?_ e ?_ es he
  · intro b x
    dsimp only
    split
    · next hgt => exact le_of_lt hgt
    · exact le_refl b
  · intro b x hb
    dsimp only
    split
    · exact compareSingleLightElement_le_one e x
    · exact hb
  · intro b hb
    dsimp only
    rw [compareSingleLightElement_self e (hsz e he)]
    split
    · exact le_refl 1
    · next hng => exact le_of_not_lt hng

theorem compareLightElements_self (es : List LightElement)
    (hsz : ∀ e ∈ es, 0 < e.Size) : compareLightElements es es = 1 := by
  rcases hes : es with _ | ⟨e, t⟩
  · unfold compareLightElements
    norm_num
  · unfold compareLightElements
    have hlen : ¬ (e :: t).length = 0 := by simp
    rw [if_neg (fun hc => hlen hc.1), if_neg (by rintro (hc | hc) <;> exact hlen hc)]
    rw [foldl_lightAccum_ones (e :: t) (e :: t) 0 0
      (fun x hx => bestLightMatch_self (e :: t) x hx (hes ▸ hsz))]
    show (if (0 + (e :: t).length : ℕ) = 0 then (0 : ℝ)
      else (0 + ((e :: t).length : ℝ)) / ((0 + (e :: t).length : ℕ) : ℝ)) = 1
    rw [if_neg (by simp)]
    rw [zero_add, Nat.zero_add, div_self (by exact_mod_cast hlen)]

theorem compareReferencePoints_self (ps : List Point2D) (h : ps ≠ []) :
    compareReferencePoints ps ps = 1 := by
  unfold compareReferencePoints
  have hlen : ¬ ps.length = 0 := fun hc => h (List.length_eq_zero.mp hc)
  rw [if_neg (by rintro (hc | hc) <;> exact hlen hc)]
  rw [foldl_pointMatchAccum_zeros ps 50 (by norm_num) ps 0 0
    (fun p hp => minDistanceTo_self_zero p ps hp)]
  show (if (0 + ps.length : ℕ) = 0 then (0 : ℝ)
    else safeFloat64 (Real.exp (-((0 : ℝ) / ((0 + ps.length : ℕ) : ℝ)) / 20)) 0.5) = 1
  rw [if_neg (by simpa using hlen)]
  rw [zero_div, show -(0 : ℝ) / 20 = 0 by norm_num, Real.exp_zero]
  exact safeFloat64_one 0.5

theorem compareContours_self (c : List Point2D) : compareContours c c = 1 := by
  rcases hc : c with _ | ⟨p, t⟩
  · unfold compareContours
    norm_num
  · unfold compareContours
    have hlen : ¬ (p :: t).length = 0 := by simp
    rw [if_neg (fun hx => hlen hx.1), if_neg (by rintro (hx | hx) <;> exact hlen hx)]
    rw [foldl_pointMatchAccum_zeros (p :: t) 30 (by norm_num) (p :: t) 0 0
      (fun q hq => minDistanceTo_self_zero q (p :: t) hq)]
    show (if (0 + (p :: t).length : ℕ) = 0 then (0 : ℝ)
      else safeFloat64 (Real.exp (-((0 : ℝ) / ((0 + (p :: t).length : ℕ) : ℝ)) / 15)) 0.5) = 1
    rw [if_neg (by simp)]
    rw [zero_div, show -(0 : ℝ) / 15 = 0 by norm_num, Real.exp_zero]
    exact safeFloat64_one 0.5

theorem compareVehicleProportions_self (p : VehicleProportions)
    (hw : 0 < p.WidthHeightRatio) (hu : 0 < p.UpperLowerRatio) :
    compareVehicleProportions p p = 1 := by
  unfold compareVehicleProportions
  by_cases hl : p.LicensePlateRatio > 0
  · simp only [max_self, sub_self, abs_zero, zero_div, sub_zero, gt_iff_lt, hw, hu, hl,
      if_true, and_self]
    norm_num [min_def, max_def]
  · simp only [max_self, sub_self, abs_zero, zero_div, sub_zero, gt_iff_lt, hw, hu,
      if_true, if_neg (fun hc : 0 < p.LicensePlateRatio ∧ 0 < p.LicensePlateRatio => hl hc.1)]
    norm_num [min_def, max_def]

theorem compareLightConfiguration_self (c : LightConfiguration)
    (hn : 0 < c.NumElements) : compareLightConfiguration c c = 1 := by
  unfold compareLightConfiguration
  have hn' : (0 : ℝ) < (c.NumElements : ℝ) := by exact_mod_cast hn
  by_cases hs : c.Spacing > 0
  · simp only [max_self, sub_self, abs_zero, zero_div, sub_zero, Int.cast_zero, abs_zero,
      gt_iff_lt, hn', hs, if_true, and_self]
    norm_num [safeFloat64, min_def, max_def]
  · simp only [max_self, sub_self, abs_zero, zero_div, sub_zero, Int.cast_zero,
      gt_iff_lt, hn', if_true,
      if_neg (fun hc : 0 < c.Spacing ∧ 0 < c.Spacing => hs hc.1)]
    norm_num [safeFloat64, min_def, max_def]

theorem comparePlateAreas_self (b : Bounds) (h : 0 < b.Width * b.Height) :
    comparePlateAreas b b = 1 := by
  unfold comparePlateAreas
  have harea : (0 : ℝ) < ((b.Width * b.Height : ℤ) : ℝ) := by exact_mod_cast h
  simp only [max_self, sub_self, abs_zero, zero_div, sub_zero, mul_zero, add_zero,
    Real.sqrt_zero, neg_zero, Real.exp_zero, gt_iff_lt, harea, if_true]
  norm_num [safeFloat64, min_def, max_def]

theorem compareGeometricFeatures_self (g : GeometricFeatures)
    (hw : 0 < g.VehicleProportions.WidthHeightRatio)
    (hu : 0 < g.VehicleProportions.UpperLowerRatio)
    (hsz : ∀ e ∈ g.StructuralElements, 0 < e.Size)
    (hrp : g.ReferencePoints ≠ []) :
    compareGeometricFeatures g g = 1 := by
  unfold compareGeometricFeatures
  rw [compareVehicleProportions_self _ hw hu, compareStructuralElements_self _ hsz,
    compareReferencePoints_self _ hrp]
  norm_num [safeFloat64, min_def, max_def]

theorem compareLightPatterns_self (p : LightPatternFeatures)
    (hsig : p.PatternSignature = [] ∨ normFold p.PatternSignature ≠ 0)
    (hsz : ∀ e ∈ p.LightElements, 0 < e.Size)
    (hn : 0 < p.LightConfiguration.NumElements) :
    compareLightPatterns p p = 1 := by
  unfold compareLightPatterns
  rw [compareSignatures_self _ hsig, compareLightElements_self _ hsz,
    compareLightConfiguration_self _ hn]
  norm_num [safeFloat64, min_def, max_def]

theorem compareBumperFeatures_self (b : BumperFeatures)
    (htex : b.TextureFeatures = [] ∨ normFold b.TextureFeatures ≠ 0)
    (hmp : b.MountingPoints ≠ [])
    (harea : 0 < b.LicensePlateArea.Width * b.LicensePlateArea.Height) :
    compareBumperFeatures b b = 1 := by
  unfold compareBumperFeatures
  rw [compareContours_self, compareSignatures_self _ htex,
    compareReferencePoints_self _ hmp, comparePlateAreas_self _ harea]
  norm_num [safeFloat64, min_def, max_def]

theorem detailedScoresFor_geometric (f : VehicleFeatures) :
    (detailedScoresFor f f).GeometricSimilarity =
      compareGeometricFeatures f.GeometricFeatures f.GeometricFeatures := by
  unfold detailedScoresFor
  rcases hD : f.DaylightFeatures with _ | d <;> rcases hI : f.InfraredFeatures with _ | i <;>
    simp [hD, hI]

theorem detailedScoresFor_lightPattern (f : VehicleFeatures) :
    (detailedScoresFor f f).LightPatternSimilarity =
      compareLightPatterns f.LightPatterns f.LightPatterns := by
  unfold detailedScoresFor
  rcases hD : f.DaylightFeatures with _ | d <;> rcases hI : f.InfraredFeatures with _ | i <;>
    simp [hD, hI]

theorem detailedScoresFor_bumper (f : VehicleFeatures) :
    (detailedScoresFor f f).BumperSimilarity =
      compareBumperFeatures f.BumperFeatures f.BumperFeatures := by
  unfold detailedScoresFor
  rcases hD : f.DaylightFeatures with _ | d <;> rcases hI : f.InfraredFeatures with _ | i <;>
    simp [hD, hI]

theorem le_safeFloat64 (v x d : ℝ) (hvx : v ≤ x) (hv1 : v ≤ 1) : v ≤ safeFloat64 x d := by
  unfold safeFloat64
  exact le_trans (le_min hv1 hvx) (le_max_right 0 _)

theorem calculateWeightedSimilarity_ge_threshold (s : DetailedScores)
    (hg : s.GeometricSimilarity = 1) (hl : s.LightPatternSimilarity = 1)
    (hb : s.BumperSimilarity = 1) (lighting : LightingType) :
    getSimilarityThreshold lighting ≤ calculateWeightedSimilarity s lighting := by
  have hc0 := safeFloat64_nonneg s.ColorSimilarity 0.5
  have ht0 := safeFloat64_nonneg s.ThermalSimilarity 0.5
  by_cases hd : lighting = LightingType.Daylight
  · simp only [calculateWeightedSimilarity, getSimilarityThreshold, hd, if_true, hg, hl, hb,
      safeFloat64_one]
    refine le_safeFloat64 _ _ _ ?_ (by norm_num)
    nlinarith
  · simp only [calculateWeightedSimilarity, getSimilarityThreshold, hd, if_false, hg, hl, hb,
      safeFloat64_one]
    refine le_safeFloat64 _ _ _ ?_ (by norm_num)
    nlinarith

end Helpers

section ClaimC3

open models comparator

/-- Claim C3 (amended): for every feature set with matching view, lighting in
Daylight/Infrared, and nondegenerate feature content (positive ratios and
sizes, nonempty reference/mounting points, nonzero signature vectors, a
positive light count and plate area — i.e. excluding zero-value defaults,
under which the engine substitutes neutral scores and self-similarity drops
below the threshold), comparing the set against itself yields the
lighting-independent per-category scores (geometric, light pattern, bumper)
exactly 1.0 and an overall similarity at or above the same-vehicle threshold.
The colour and thermal categories cannot reach 1.0 in general because the
engine compares badges, trim, reflective elements and heat patterns with
hard-coded 0.5 placeholders. -/
theorem compareVehicles_identity_nondegenerate (f : VehicleFeatures)
    (hnd : Nondegenerate f)
    (hlight : f.Lighting = LightingType.Daylight ∨ f.Lighting = LightingType.Infrared) :
    ∃ r, CompareVehicles f f = Except.ok r ∧
      r.DetailedScores.GeometricSimilarity = 1 ∧
      r.DetailedScores.LightPatternSimilarity = 1 ∧
      r.DetailedScores.BumperSimilarity = 1 ∧
      getSimilarityThreshold f.Lighting ≤ r.SimilarityScore := by
  obtain ⟨hw, hu, hsz, hrp, hsig, hlsz, hn, htex, hmp, harea⟩ := hnd
  have hg : (detailedScoresFor f f).GeometricSimilarity = 1 := by
    rw [detailedScoresFor_geometric]
    exact compareGeometricFeatures_self _ hw hu hsz hrp
  have hl : (detailedScoresFor f f).LightPatternSimilarity = 1 := by
    rw [detailedScoresFor_lightPattern]
    exact compareLightPatterns_self _ hsig hlsz hn
  have hb : (detailedScoresFor f f).BumperSimilarity = 1 := by
    rw [detailedScoresFor_bumper]
    exact compareBumperFeatures_self _ htex hmp harea
  refine ⟨{ IsSameVehicle :=
              decide (overallSimilarityFor f f > getSimilarityThreshold f.Lighting)
            SimilarityScore := overallSimilarityFor f f
            ConfidenceLevel := calculateConfidenceLevel (overallSimilarityFor f f) f f
            DetailedScores := detailedScoresFor f f }, ?_, hg, hl, hb, ?_⟩
  · unfold CompareVehicles
    rw [if_neg (by simp), if_neg (by simp)]
  · show getSimilarityThreshold f.Lighting ≤ overallSimilarityFor f f
    unfold overallSimilarityFor
    exact calculateWeightedSimilarity_ge_threshold _ hg hl hb f.Lighting

/-- Witness for the amended C3: the concrete nondegenerate daylight feature
set compared against itself clears the 0.75 threshold with the three
universal categories at exactly 1.0. -/
theorem compareVehicles_identity_witness :
    Nondegenerate sampleFeatures ∧
      (sampleFeatures.Lighting = LightingType.Daylight ∨
        sampleFeatures.Lighting = LightingType.Infrared) ∧
      ∃ r, CompareVehicles sampleFeatures sampleFeatures = Except.ok r ∧
        r.DetailedScores.GeometricSimilarity = 1 ∧
        r.DetailedScores.LightPatternSimilarity = 1 ∧
        r.DetailedScores.BumperSimilarity = 1 ∧
        getSimilarityThreshold sampleFeatures.Lighting ≤ r.SimilarityScore := by
  have hnd : Nondegenerate sampleFeatures := by
    refine ⟨by norm_num [sampleFeatures], by norm_num [sampleFeatures], ?_, ?_, ?_, ?_, ?_,
      ?_, ?_, ?_⟩
    · intro e he
      simp only [sampleFeatures, List.mem_singleton] at he
      rw [he]
      norm_num
    · simp [sampleFeatures]
    · exact Or.inr (by norm_num [sampleFeatures, sumSquares, normFold])
    · intro e he
      simp only [sampleFeatures, List.mem_singleton] at he
      rw [he]
      norm_num
    · norm_num [sampleFeatures]
    · exact Or.inr (by norm_num [sampleFeatures, sumSquares, normFold])
    · simp [sampleFeatures]
    · norm_num [sampleFeatures]
  exact ⟨hnd, Or.inl rfl,
    compareVehicles_identity_nondegenerate sampleFeatures hnd (Or.inl rfl)⟩

end ClaimC3

section EvalEmpty

open models comparator

theorem eval_proportions_empty :
    compareVehicleProportions ⟨0, 0, 0⟩ ⟨0, 0, 0⟩ = 0.6 := by
  norm_num [compareVehicleProportions, max_self, min_def, max_def]

theorem eval_refpoints_empty : compareReferencePoints [] [] = 0.5 := by
  norm_num [compareReferencePoints]

theorem eval_geometric_empty :
    compareGeometricFeatures
      { VehicleProportions := ⟨0, 0, 0⟩, StructuralElements := [], ReferencePoints := [] }
      { VehicleProportions := ⟨0, 0, 0⟩, StructuralElements := [], ReferencePoints := [] } =
      0.74 := by
  unfold compareGeometricFeatures
  have hproj : ({ VehicleProportions := ⟨0, 0, 0⟩,
                  StructuralElements := [],
                  ReferencePoints := [] } : GeometricFeatures).VehicleProportions =
      (⟨0, 0, 0⟩ : VehicleProportions) := rfl
  rw [hproj, eval_proportions_empty, compareStructuralElements_self [] (by simp),
    eval_refpoints_empty]
  norm_num [safeFloat64, min_def, max_def]

theorem eval_signatures_empty : compareSignatures [] [] = 1 := by
  norm_num [compareSignatures]

theorem eval_lightelems_empty : compareLightElements [] [] = 1 := by
  norm_num [compareLightElements]

theorem eval_lightconfig_empty :
    compareLightConfiguration ⟨0, 0, 0⟩ ⟨0, 0, 0⟩ = 0.8 := by
  norm_num [compareLightConfiguration, safeFloat64, max_self, min_def, max_def]

theorem eval_lightpatterns_empty :
    compareLightPatterns
      { LightElements := [], PatternSignature := [], LightConfiguration := ⟨0, 0, 0⟩ }
      { LightElements := [], PatternSignature := [], LightConfiguration := ⟨0, 0, 0⟩ } =
      0.96 := by
  unfold compareLightPatterns
  have hproj : ({ LightElements := [],
                  PatternSignature := [],
                  LightConfiguration := ⟨0, 0, 0⟩ } :
      LightPatternFeatures).LightConfiguration = (⟨0, 0, 0⟩ : LightConfiguration) := rfl
  rw [hproj, eval_signatures_empty, eval_lightelems_empty, eval_lightconfig_empty]
  norm_num [safeFloat64, min_def, max_def]

theorem eval_plateareas_empty : comparePlateAreas ⟨0, 0, 0, 0⟩ ⟨0, 0, 0, 0⟩ = 0.8 := by
  norm_num [comparePlateAreas, safeFloat64, Real.sqrt_zero, Real.exp_zero, max_self,
    min_def, max_def]

theorem eval_bumper_empty :
    compareBumperFeatures
      { ContourSignature := [], TextureFeatures := [], MountingPoints := [],
        LicensePlateArea := ⟨0, 0, 0, 0⟩ }
      { ContourSignature := [], TextureFeatures := [], MountingPoints := [],
        LicensePlateArea := ⟨0, 0, 0, 0⟩ } = 0.86 := by
  unfold compareBumperFeatures
  have hproj : ({ ContourSignature := [],
                  TextureFeatures := [],
                  MountingPoints := [],
                  LicensePlateArea := ⟨0, 0, 0, 0⟩ } : BumperFeatures).LicensePlateArea =
      (⟨0, 0, 0, 0⟩ : Bounds) := rfl
  rw [hproj, compareContours_self, eval_signatures_empty, eval_refpoints_empty,
    eval_plateareas_empty]
  norm_num [safeFloat64, min_def, max_def]

theorem eval_detailed_empty :
    detailedScoresFor (emptyFeatures VehicleView.Front LightingType.Daylight)
        (emptyFeatures VehicleView.Front LightingType.Daylight) =
      emptyCompareResult.DetailedScores := by
  unfold detailedScoresFor
  have hD : (emptyFeatures VehicleView.Front LightingType.Daylight).DaylightFeatures =
    none := rfl
  have hI : (emptyFeatures VehicleView.Front LightingType.Daylight).InfraredFeatures =
    none := rfl
  have hG : (emptyFeatures VehicleView.Front LightingType.Daylight).GeometricFeatures =
    { VehicleProportions := ⟨0, 0, 0⟩,
      StructuralElements := [],
      ReferencePoints := [] } := rfl
  have hL : (emptyFeatures VehicleView.Front LightingType.Daylight).LightPatterns =
    { LightElements := [],
      PatternSignature := [],
      LightConfiguration := ⟨0, 0, 0⟩ } := rfl
  have hB : (emptyFeatures VehicleView.Front LightingType.Daylight).BumperFeatures =
    { ContourSignature := [],
      TextureFeatures := [],
      MountingPoints := [],
      LicensePlateArea := ⟨0, 0, 0, 0⟩ } := rfl
  rw [hD, hI]
  show ({ GeometricSimilarity := _,
          LightPatternSimilarity := _,
          BumperSimilarity := _,
          ColorSimilarity := 0,
          ThermalSimilarity := 0 } : DetailedScores) = _
  rw [hG, hL, hB, eval_geometric_empty, eval_lightpatterns_empty, eval_bumper_empty]
  rfl

theorem eval_weighted_empty :
    calculateWeightedSimilarity emptyCompareResult.DetailedScores LightingType.Daylight =
      0.682 := by
  norm_num [calculateWeightedSimilarity, emptyCompareResult, safeFloat64, min_def, max_def]

theorem eval_confidence_empty :
    calculateConfidenceLevel 0.682 (emptyFeatures VehicleView.Front LightingType.Daylight)
        (emptyFeatures VehicleView.Front LightingType.Daylight) =
      ConfidenceLevel.ConfidenceLow := by
  norm_num [calculateConfidenceLevel, emptyFeatures]

theorem eval_compare_empty :
    CompareVehicles (emptyFeatures VehicleView.Front LightingType.Daylight)
        (emptyFeatures VehicleView.Front LightingType.Daylight) =
      Except.ok emptyCompareResult := by
  have hov : overallSimilarityFor (emptyFeatures VehicleView.Front LightingType.Daylight)
      (emptyFeatures VehicleView.Front LightingType.Daylight) = 0.682 := by
    unfold overallSimilarityFor
    rw [eval_detailed_empty]
    exact eval_weighted_empty
  have hth : getSimilarityThreshold
      (emptyFeatures VehicleView.Front LightingType.Daylight).Lighting = 0.75 := by
    norm_num [getSimilarityThreshold, emptyFeatures]
  have hdec : decide (overallSimilarityFor
        (emptyFeatures VehicleView.Front LightingType.Daylight)
        (emptyFeatures VehicleView.Front LightingType.Daylight) >
      getSimilarityThreshold
        (emptyFeatures VehicleView.Front LightingType.Daylight).Lighting) = false := by
    rw [hov, hth]
    simp only [decide_eq_false_iff_not]
    norm_num
  have hcf : calculateConfidenceLevel
      (overallSimilarityFor (emptyFeatures VehicleView.Front LightingType.Daylight)
        (emptyFeatures VehicleView.Front LightingType.Daylight))
      (emptyFeatures VehicleView.Front LightingType.Daylight)
      (emptyFeatures VehicleView.Front LightingType.Daylight) =
      ConfidenceLevel.ConfidenceLow := by
    rw [hov]
    exact eval_confidence_empty
  unfold CompareVehicles
  rw [if_neg (by simp), if_neg (by simp), hdec, hcf, eval_detailed_empty, hov]
  rfl

end EvalEmpty

section ClaimC3b

open models comparator

/-- Counterexample for C3: the all-empty (Go zero value) daylight feature
set F satisfies the claim's hypotheses (matching view, daylight lighting),
yet `CompareVehicles(F, F)` returns overall similarity 0.682, strictly below
the 0.75 daylight threshold, with geometric category score 0.74 (not ≈1.0):
zero proportions, empty reference-point sets and zero plate areas draw the
engine's neutral 0.5 defaults rather than perfect self-similarity. -/
theorem compareVehicles_identity_fails_on_empty :
    CompareVehicles (emptyFeatures VehicleView.Front LightingType.Daylight)
        (emptyFeatures VehicleView.Front LightingType.Daylight) =
      Except.ok emptyCompareResult ∧
      emptyCompareResult.SimilarityScore <
        getSimilarityThreshold
          (emptyFeatures VehicleView.Front LightingType.Daylight).Lighting ∧
      emptyCompareResult.DetailedScores.GeometricSimilarity = 0.74 ∧
      emptyCompareResult.IsSameVehicle = false :=
  ⟨eval_compare_empty,
   by norm_num [emptyCompareResult, getSimilarityThreshold, emptyFeatures],
   rfl, rfl⟩

end ClaimC3b

section ClaimC2b

open models comparator

/-- Witness for C2: the concrete identity comparison of the empty daylight
feature set, whose overall similarity 0.682 does not exceed the 0.75
daylight threshold, so the strict decision rule yields `false`. -/
theorem compareVehicles_strict_threshold_witness :
    (emptyCompareResult.IsSameVehicle = true ↔
      emptyCompareResult.SimilarityScore >
        getSimilarityThreshold
          (emptyFeatures VehicleView.Front LightingType.Daylight).Lighting) ∧
      getSimilarityThreshold LightingType.Daylight = 0.75 ∧
      getSimilarityThreshold LightingType.Infrared = 0.70 ∧
      ((emptyFeatures VehicleView.Front LightingType.Daylight).Lighting =
          LightingType.Daylight →
        emptyCompareResult.SimilarityScore = 0.75 →
        emptyCompareResult.IsSameVehicle = false) :=
  compareVehicles_strict_threshold _ _ _ eval_compare_empty

end ClaimC2b

section ClaimC7

open models comparator

theorem foldl_reflectCellAccum (cs : List (ℝ × ℝ)) :
    ∀ (a : ℝ × ℕ), cs.foldl reflectCellAccum a =
      (a.1 + (cs.map (fun c => |c.1 - c.2|)).sum, a.2 + cs.length) := by
  induction cs with
  | nil => intro a; simp
  | cons c t ih =>
      intro a
      have hstep : reflectCellAccum a c = (a.1 + |c.1 - c.2|, a.2 + 1) := rfl
      rw [List.foldl_cons, hstep, ih]
      refine Prod.ext ?_ ?_
      · show a.1 + |c.1 - c.2| + (t.map (fun c => |c.1 - c.2|)).sum =
          a.1 + ((c :: t).map (fun c => |c.1 - c.2|)).sum
        rw [List.map_cons, List.sum_cons]
        ring
      · show a.2 + 1 + t.length = a.2 + (c :: t).length
        rw [List.length_cons]
        omega

theorem foldl_reflectRow_skip (l : List (List ℝ × List ℝ))
    (h : ∀ p ∈ l, p.1.length ≠ p.2.length) :
    ∀ acc, l.foldl reflectRowAccum acc = acc := by
  induction l with
  | nil => intro acc; simp
  | cons p t ih =>
      intro acc
      rw [List.foldl_cons]
      have hstep : reflectRowAccum acc p = acc := by
        unfold reflectRowAccum
        rw [if_pos (h p (List.mem_cons_self p t))]
      rw [hstep]
      exact ih (fun q hq => h q (List.mem_cons_of_mem p hq)) acc

theorem foldl_reflectRow_full (l : List (List ℝ × List ℝ))
    (h : ∀ p ∈ l, p.1.length = p.2.length) :
    ∀ (t : ℝ) (c : ℕ), l.foldl reflectRowAccum (t, c) =
      (t + (l.map (fun p => ((p.1.zip p.2).map (fun cc => |cc.1 - cc.2|)).sum)).sum,
       c + (l.map (fun p => (p.1.zip p.2).length)).sum) := by
  induction l with
  | nil => intro t c; simp
  | cons p s ih =>
      intro t c
      rw [List.foldl_cons]
      have hstep : reflectRowAccum (t, c) p =
          (t + ((p.1.zip p.2).map (fun cc => |cc.1 - cc.2|)).sum,
           c + (p.1.zip p.2).length) := by
        unfold reflectRowAccum
        rw [if_neg (by simp [h p (List.mem_cons_self p s)])]
        exact foldl_reflectCellAccum _ _
      rw [hstep, ih (fun q hq => h q (List.mem_cons_of_mem p hq))]
      refine Prod.ext ?_ ?_
      · show t + ((p.1.zip p.2).map (fun cc => |cc.1 - cc.2|)).sum +
            (s.map (fun p => ((p.1.zip p.2).map (fun cc => |cc.1 - cc.2|)).sum)).sum =
          t + ((p :: s).map (fun p => ((p.1.zip p.2).map (fun cc => |cc.1 - cc.2|)).sum)).sum
        rw [List.map_cons, List.sum_cons]
        ring
      · show c + (p.1.zip p.2).length +
            (s.map (fun p => (p.1.zip p.2).length)).sum =
          c + ((p :: s).map (fun p => (p.1.zip p.2).length)).sum
        rw [List.map_cons, List.sum_cons]
        omega

theorem sum_map_const_nat {α : Type} (l : List α) (g : α → ℕ) (k : ℕ)
    (h : ∀ x ∈ l, g x = k) : (l.map g).sum = l.length * k := by
  induction l with
  | nil => simp
  | cons x t ih =>
      rw [List.map_cons, List.sum_cons, List.length_cons,
        ih (fun y hy => h y (List.mem_cons_of_mem x hy)), h x (List.mem_cons_self x t)]
      ring

/-- Claim C7: comparing reflectivity maps of genuinely different grid
dimensions yields similarity exactly 0.0 (no error, no crash — the function
is total), and comparing maps of identical dimensions (with in-range cells,
as reflectivity maps are mean brightness / 255) yields exactly
1 − (total absolute cell difference) / (cell count). -/
theorem compareReflectivityMaps_dimensions (map1 map2 : List (List ℝ)) (r1 c1 r2 c2 : ℕ)
    (h1r : map1.length = r1) (h1c : ∀ row ∈ map1, row.length = c1)
    (h2r : map2.length = r2) (h2c : ∀ row ∈ map2, row.length = c2)
    (hr1 : 0 < r1) (hc1 : 0 < c1) (hr2 : 0 < r2) (hc2 : 0 < c2)
    (hcell1 : ∀ row ∈ map1, ∀ x ∈ row, 0 ≤ x ∧ x ≤ 1)
    (hcell2 : ∀ row ∈ map2, ∀ x ∈ row, 0 ≤ x ∧ x ≤ 1) :
    ((r1, c1) ≠ (r2, c2) → compareReflectivityMaps map1 map2 = 0) ∧
      ((r1, c1) = (r2, c2) →
        compareReflectivityMaps map1 map2 =
          1 - sumAbsDiff map1 map2 / ((r1 : ℝ) * (c1 : ℝ))) := by
  have hm1 : ¬ map1.length = 0 := by omega
  have hm2 : ¬ map2.length = 0 := by omega
  constructor
  · intro hne
    unfold compareReflectivityMaps
    rw [if_neg (fun hc => hm1 hc.1), if_neg (by rintro (hc | hc); exacts [hm1 hc, hm2 hc])]
    by_cases hrr : r1 = r2
    · have hcc : c1 ≠ c2 := fun hcc => hne (by rw [hrr, hcc])
      rw [if_neg (by rw [h1r, h2r, hrr]; exact fun hx => hx rfl)]
      rw [foldl_reflectRow_skip _ ?hskip (0, 0)]
      case hskip =>
        intro p hp
        obtain ⟨hp1, hp2⟩ := List.of_mem_zip hp
        rw [h1c p.1 hp1, h2c p.2 hp2]
        exact hcc
      norm_num
    · rw [if_pos (by rw [h1r, h2r]; exact hrr)]
  · intro heq
    have hrr : r1 = r2 := (Prod.mk.injEq _ _ _ _ ▸ heq).1
    have hcc : c1 = c2 := (Prod.mk.injEq _ _ _ _ ▸ heq).2
    unfold compareReflectivityMaps
    rw [if_neg (fun hc => hm1 hc.1), if_neg (by rintro (hc | hc); exacts [hm1 hc, hm2 hc])]
    rw [if_neg (by rw [h1r, h2r, hrr]; exact fun hx => hx rfl)]
    have hrows : ∀ p ∈ map1.zip map2, p.1.length = p.2.length := by
      intro p hp
      obtain ⟨hp1, hp2⟩ := List.of_mem_zip hp
      rw [h1c p.1 hp1, h2c p.2 hp2, hcc]
    rw [foldl_reflectRow_full _ hrows 0 0]
    have hziplen : (map1.zip map2).length = r1 := by
      rw [List.length_zip, h1r, h2r, hrr, min_self]
    have hcount : (0 + ((map1.zip map2).map (fun p => (p.1.zip p.2).length)).sum) =
        r1 * c1 := by
      rw [Nat.zero_add, sum_map_const_nat _ _ c1 ?hk, hziplen]
      case hk =>
        intro p hp
        obtain ⟨hp1, hp2⟩ := List.of_mem_zip hp
        rw [List.length_zip, h1c p.1 hp1, h2c p.2 hp2, hcc, min_self]
    have hcount0 : ¬ (0 + ((map1.zip map2).map (fun p => (p.1.zip p.2).length)).sum) = 0 := by
      rw [hcount]
      positivity
    rw [if_neg hcount0]
    have hS : (0 : ℝ) + ((map1.zip map2).map
        (fun p => ((p.1.zip p.2).map (fun cc => |cc.1 - cc.2|)).sum)).sum =
        sumAbsDiff map1 map2 := by
      rw [zero_add]
      rfl
    have hrowbounds : ∀ v ∈ (map1.zip map2).map
        (fun p => ((p.1.zip p.2).map (fun cc => |cc.1 - cc.2|)).sum),
        0 ≤ v ∧ v ≤ (c1 : ℝ) := by
      intro v hv
      obtain ⟨p, hp, hpv⟩ := List.mem_map.mp hv
      obtain ⟨hp1, hp2⟩ := List.of_mem_zip hp
      have hterm : ∀ u ∈ (p.1.zip p.2).map (fun cc => |cc.1 - cc.2|), 0 ≤ u ∧ u ≤ 1 := by
        intro u hu
        obtain ⟨cc, hcc', hcu⟩ := List.mem_map.mp hu
        obtain ⟨hc1', hc2'⟩ := List.of_mem_zip hcc'
        obtain ⟨ha0, ha1⟩ := hcell1 p.1 hp1 cc.1 hc1'
        obtain ⟨hb0, hb1⟩ := hcell2 p.2 hp2 cc.2 hc2'
        constructor
        · rw [← hcu]; exact abs_nonneg _
        · rw [← hcu]
          rw [abs_le]
          constructor <;> linarith
      constructor
      · rw [← hpv]
        exact List.sum_nonneg (fun u hu => (hterm u hu).1)
      · rw [← hpv]
        calc ((p.1.zip p.2).map (fun cc => |cc.1 - cc.2|)).sum ≤
            ((p.1.zip p.2).map (fun cc => |cc.1 - cc.2|)).length • (1 : ℝ) :=
              List.sum_le_card_nsmul _ _ (fun u hu => (hterm u hu).2)
          _ = ((p.1.zip p.2).length : ℝ) := by rw [nsmul_eq_mul, mul_one, List.length_map]
          _ = (c1 : ℝ) := by
              rw [List.length_zip, h1c p.1 hp1, h2c p.2 hp2, hcc, min_self]
    have hS0 : 0 ≤ sumAbsDiff map1 map2 := by
      rw [← hS, zero_add]
      exact List.sum_nonneg (fun v hv => (hrowbounds v hv).1)
    have hSle : sumAbsDiff map1 map2 ≤ (r1 : ℝ) * (c1 : ℝ) := by
      rw [← hS, zero_add]
      calc ((map1.zip map2).map
          (fun p => ((p.1.zip p.2).map (fun cc => |cc.1 - cc.2|)).sum)).sum ≤
            ((map1.zip map2).map
              (fun p => ((p.1.zip p.2).map (fun cc => |cc.1 - cc.2|)).sum)).length •
              (c1 : ℝ) :=
            List.sum_le_card_nsmul _ _ (fun v hv => (hrowbounds v hv).2)
        _ = ((map1.zip map2).length : ℝ) * (c1 : ℝ) := by
            rw [nsmul_eq_mul, List.length_map]
        _ = (r1 : ℝ) * (c1 : ℝ) := by rw [hziplen]
    have hrc : (0 : ℝ) < (r1 : ℝ) * (c1 : ℝ) := by positivity
    have havg0 : 0 ≤ sumAbsDiff map1 map2 / ((r1 : ℝ) * (c1 : ℝ)) :=
      div_nonneg hS0 (le_of_lt hrc)
    have havg1 : sumAbsDiff map1 map2 / ((r1 : ℝ) * (c1 : ℝ)) ≤ 1 :=
      (div_le_one hrc).mpr hSle
    have hcast : ((0 + ((map1.zip map2).map (fun p => (p.1.zip p.2).length)).sum : ℕ) : ℝ) =
        (r1 : ℝ) * (c1 : ℝ) := by
      rw [hcount]
      push_cast
      ring
    rw [hS, hcast]
    exact safeFloat64_eq _ _ (by linarith) (by linarith)

/-- Witness for C7: two 1×1 maps with identical dimensions compare to
1 − mean absolute cell difference. -/
theorem compareReflectivityMaps_dimensions_witness :
    compareReflectivityMaps [[0.5]] [[0.25]] =
      1 - sumAbsDiff [[0.5]] [[0.25]] / (((1 : ℕ) : ℝ) * ((1 : ℕ) : ℝ)) :=
  (compareReflectivityMaps_dimensions [[0.5]] [[0.25]] 1 1 1 1 (by simp)
    (by intro row hr; rw [List.mem_singleton] at hr; rw [hr]; rfl) (by simp)
    (by intro row hr; rw [List.mem_singleton] at hr; rw [hr]; rfl)
    one_pos one_pos one_pos one_pos
    (by
      intro row hr x hx
      rw [List.mem_singleton] at hr
      subst hr
      rw [List.mem_singleton] at hx
      subst hx
      norm_num)
    (by
      intro row hr x hx
      rw [List.mem_singleton] at hr
      subst hr
      rw [List.mem_singleton] at hx
      subst hx
      norm_num)).2 rfl

end ClaimC7

section ClaimC8

open models extractor

/-- Claim C8: license plate detection never fails — for every image and every
contour list it returns a `LicensePlateRegion` (the Go error is always nil),
and when no size-valid candidate scores and the brightest-window scan keeps
nothing, the last-resort tier returns the fixed bottom-centre region with
confidence 0.1, average brightness 0 and `IsReflective = false`. -/
theorem detectLicensePlate_never_fails (g : GrayMat) (cands : List Candidate) :
    (∃ r, DetectLicensePlate g cands = Except.ok r) ∧
      (pickBestCandidate g cands = none → scanBrightest g = none →
        DetectLicensePlate g cands = Except.ok (bottomCenterFallback g) ∧
          (bottomCenterFallback g).Confidence = 0.1 ∧
          (bottomCenterFallback g).AvgBrightness = 0 ∧
          (bottomCenterFallback g).IsReflective = false ∧
          (bottomCenterFallback g).Bounds =
            { X := (g.cols - 160) / 2, Y := g.rows - 53 - 20,
              Width := 160, Height := 53 }) := by
  constructor
  · unfold DetectLicensePlate
    cases h : pickBestCandidate g cands with
    | some c => exact ⟨c, rfl⟩
    | none => exact ⟨findBrightestRectangularRegion g, rfl⟩
  · intro hpick hscan
    have hdet : DetectLicensePlate g cands = Except.ok (bottomCenterFallback g) := by
      unfold DetectLicensePlate findBrightestRectangularRegion
      rw [hpick, hscan]
    refine ⟨hdet, rfl, rfl, rfl, ?_⟩
    show ({ X := (g.cols - 80 * 2) / 2, Y := g.rows - 80 * 2 / 3 - 20,
            Width := 80 * 2, Height := 80 * 2 / 3 } : Bounds) =
      { X := (g.cols - 160) / 2, Y := g.rows - 53 - 20, Width := 160, Height := 53 }
    norm_num

/-- Witness for C8: a 10×10 all-black image with no contour candidates takes
the last-resort tier. -/
theorem detectLicensePlate_never_fails_witness :
    pickBestCandidate black10 [] = none ∧ scanBrightest black10 = none ∧
      DetectLicensePlate black10 [] = Except.ok (bottomCenterFallback black10) ∧
      (bottomCenterFallback black10).Confidence = 0.1 ∧
      (bottomCenterFallback black10).AvgBrightness = 0 ∧
      (bottomCenterFallback black10).IsReflective = false ∧
      (bottomCenterFallback black10).Bounds =
        { X := (black10.cols - 160) / 2, Y := black10.rows - 53 - 20,
          Width := 160, Height := 53 } := by
  have h1 : pickBestCandidate black10 [] = none := rfl
  have h2 : scanBrightest black10 = none := by
    unfold scanBrightest
    have hrows : black10.rows = 10 := rfl
    rw [hrows]
    have hrange : stepRange ((10 : ℤ) / 3) (10 - 20) 10 = [] := by
      unfold stepRange
      have hcount : (((10 : ℤ) - 20 - 10 / 3 + 10 - 1) / 10).toNat = 0 := by decide
      rw [hcount]
      rfl
    rw [hrange]
    rfl
  obtain ⟨h3, h4, h5, h6, h7⟩ := (detectLicensePlate_never_fails black10 []).2 h1 h2
  exact ⟨h1, h2, h3, h4, h5, h6, h7⟩

end ClaimC8
